import Mathlib

/-!
Verification of the Cyber Runner core: procedural world generation
(`World`), physics (`Physics`), player state machine (`Player`) and the
per-tick run controller (`Game.update`), shallowly embedded over ℚ.
JavaScript numbers are modelled as rationals; each `Math.random()`
call made by the `Utils` helpers at the end of `src/js/audio.js` is
modelled as the next value of an oracle stream of draws in `[0, 1)`,
consumed in the order the source draws them; the unbounded generation
`while` loops are modelled with an explicit fuel parameter (every invariant proved below holds for every
fuel value, so it holds in particular for the fuel that lets the loop
run to completion).
-/

/-- A stream of raw `Math.random()` results; each value is meant to lie
in `[0, 1)`. -/
abbrev DrawStream := ℕ → ℚ

/-- A draw stream is valid when every draw lies in `[0, 1)`, the range
of `Math.random()`. -/
def ValidDraws (σ : DrawStream) : Prop := ∀ i, 0 ≤ σ i ∧ σ i < 1

/-- The all-zeroes draw stream (every draw takes its minimum value). -/
def zeroDraws : DrawStream := fun _ => 0

/-- `Utils.clamp(value, min, max)` from `src/js/audio.js`:
`Math.max(min, Math.min(max, value))`. -/
def clampQ (v lo hi : ℚ) : ℚ := max lo (min hi v)

/-- `Utils.random(min, max)` from `src/js/audio.js`:
`Math.random() * (max - min) + min`; `u` is the `Math.random()` draw. -/
def randQ (lo hi u : ℚ) : ℚ := u * (hi - lo) + lo

/-- `Utils.randomInt(min, max)` from `src/js/audio.js`:
`Math.floor(Math.random() * (max - min + 1)) + min`; `u` is the
`Math.random()` draw. -/
def randIntQ (lo hi : ℤ) (u : ℚ) : ℤ := Rat.floor (u * ((hi : ℚ) - lo + 1)) + lo

/-- A building (platform): `y` is the rooftop surface; `height` extends
far below the visible area. Mirrors the pooled objects of `World`. -/
structure Building where
  x : ℚ
  y : ℚ
  width : ℚ
  height : ℚ
  active : Bool
  style : ℤ
deriving Repr, DecidableEq

/-- The world-generator state: the fields of `World` that the core
dynamics read or write (rendering-only state such as rain and parallax
layers is omitted; it never feeds back into these fields). -/
structure WorldState where
  buildings : List Building
  scrollSpeed : ℚ
  distanceTraveled : ℚ
  worldOffset : ℚ
  lastBuildingEnd : ℚ
  difficulty : ℚ
deriving Repr

namespace World

/-- `canvasWidth` as configured by `Game.resizeCanvas` (`800`). -/
def canvasWidth : ℚ := 800

/-- `canvasHeight` as configured by `Game.resizeCanvas` (`600`). -/
def canvasHeight : ℚ := 600

/-- `this.groundY = canvasHeight - 100`. -/
def groundY : ℚ := canvasHeight - 100

def baseSpeed : ℚ := 6

def maxSpeed : ℚ := 14

/-- `speedIncreaseRate = 0.0003`. -/
def speedIncreaseRate : ℚ := 3 / 10000

def minBuildingWidth : ℚ := 200

def maxBuildingWidth : ℚ := 500

def minGap : ℚ := 80

def maxGap : ℚ := 200

def heightVariation : ℚ := 80

/-- The reference frame interval `16.67` ms used to scale `deltaTime`. -/
def frameRef : ℚ := 1667 / 100

/-- `World.addBuilding(x, y, width)`: appends a fresh active building;
`height = canvasHeight - y + 200`, style drawn by `Utils.randomInt(0, 2)`. -/
def addBuilding (w : WorldState) (x y width : ℚ) (uStyle : ℚ) : WorldState :=
  { w with
    buildings := w.buildings ++
      [{ x := x, y := y, width := width, height := canvasHeight - y + 200,
         active := true, style := randIntQ 0 2 uStyle }] }

/-- The gap drawn by `World.generateNextBuilding`:
`Utils.random(minGap * m, maxGap * m)` with `m = min(difficulty, 2)`. -/
def gapDraw (w : WorldState) (u : ℚ) : ℚ :=
  randQ (minGap * min w.difficulty 2) (maxGap * min w.difficulty 2) u

/-- The width drawn by `World.generateNextBuilding`:
`Utils.random(max(minW - r, 120), max(maxW - r, 250))` with
`r = min(difficulty * 20, 150)`. -/
def widthDraw (w : WorldState) (u : ℚ) : ℚ :=
  randQ (max (minBuildingWidth - min (w.difficulty * 20) 150) 120)
        (max (maxBuildingWidth - min (w.difficulty * 20) 150) 250) u

/-- `this.buildings[this.buildings.length - 1].y`, or `groundY` when the
list is empty. -/
def baseYOf (w : WorldState) : ℚ :=
  match w.buildings.getLast? with
  | some b => b.y
  | none => groundY

/-- The new rooftop level drawn by `World.generateNextBuilding`:
`clamp(baseY + random(-hv, hv), groundY - 100, groundY + 60)`. -/
def newYDraw (w : WorldState) (u : ℚ) : ℚ :=
  clampQ (baseYOf w + randQ (-heightVariation) heightVariation u)
    (groundY - 100) (groundY + 60)

/-- `World.generateNextBuilding()`: draws gap, width and rooftop level,
appends the building at `x = lastBuildingEnd + gap` and advances
`lastBuildingEnd = x + width`. Draws are consumed in source order. -/
def generateNextBuilding (w : WorldState) (u1 u2 u3 u4 : ℚ) : WorldState :=
  let gap := gapDraw w u1
  let width := widthDraw w u2
  let newY := newYDraw w u3
  let x := w.lastBuildingEnd + gap
  let w1 := addBuilding w x newY width u4
  { w1 with lastBuildingEnd := x + width }

/-- The generation `while` loop of `World.update`:
`while (lastBuildingEnd - worldOffset < canvasWidth + 600) generateNextBuilding()`,
modelled with fuel. -/
def genLoopUpdate : ℕ → WorldState → DrawStream → ℕ → WorldState
  | 0, w, _, _ => w
  | fuel + 1, w, σ, i =>
    if w.lastBuildingEnd - w.worldOffset < canvasWidth + 600 then
      genLoopUpdate fuel (generateNextBuilding w (σ i) (σ (i+1)) (σ (i+2)) (σ (i+3))) σ (i + 4)
    else w

/-- The generation `while` loop of `World.generateInitialBuildings`:
`while (lastBuildingEnd < canvasWidth + 800) generateNextBuilding()`,
modelled with fuel. -/
def genLoopInit : ℕ → WorldState → DrawStream → ℕ → WorldState
  | 0, w, _, _ => w
  | fuel + 1, w, σ, i =>
    if w.lastBuildingEnd < canvasWidth + 800 then
      genLoopInit fuel (generateNextBuilding w (σ i) (σ (i+1)) (σ (i+2)) (σ (i+3))) σ (i + 4)
    else w

/-- `World.generateInitialBuildings()`: one long safe building
`[0, 400]` at `groundY`, then generation up to the initial frontier. -/
def generateInitialBuildings (w : WorldState) (σ : DrawStream) (fuel : ℕ) : WorldState :=
  let w1 := addBuilding w 0 groundY 400 (σ 0)
  genLoopInit fuel { w1 with lastBuildingEnd := 400 } σ 1

/-- The `World` constructor followed by `init()` (its building-relevant
part `generateInitialBuildings`). -/
def initWorld (σ : DrawStream) (fuel : ℕ) : WorldState :=
  generateInitialBuildings
    { buildings := [], scrollSpeed := baseSpeed, distanceTraveled := 0,
      worldOffset := 0, lastBuildingEnd := 0, difficulty := 1 } σ fuel

/-- `World.reset()`: clears the building list, zeroes the accumulators,
restores `scrollSpeed = baseSpeed`, `difficulty = 1`, and regenerates. -/
def reset (w : WorldState) (σ : DrawStream) (fuel : ℕ) : WorldState :=
  generateInitialBuildings
    { w with
      buildings := [], worldOffset := 0, lastBuildingEnd := 0,
      difficulty := 1, distanceTraveled := 0, scrollSpeed := baseSpeed } σ fuel

/-- The off-screen retirement step of `World.update`: drop every
building with `x + width < -50` (order preserved, as in the source's
backwards splice loop). -/
def removeOffscreen : List Building → List Building
  | [] => []
  | b :: rest =>
    if b.x + b.width < -50 then removeOffscreen rest else b :: removeOffscreen rest

/-- `World.update(deltaTime)`: scroll, retire, ramp speed/difficulty,
generate at the frontier, retire the frontier counter. Field update
order follows the source: `scrollAmount` uses the pre-update speed, the
new speed/difficulty use the post-update distance, and
`lastBuildingEnd` is decremented only after generation. -/
def update (w : WorldState) (deltaTime : ℚ) (σ : DrawStream) (fuel : ℕ) : WorldState :=
  let scrollAmount := w.scrollSpeed * (deltaTime / frameRef)
  let dist := w.distanceTraveled + scrollAmount
  let w1 : WorldState :=
    { buildings := removeOffscreen (w.buildings.map (fun b => { b with x := b.x - scrollAmount })),
      scrollSpeed := min maxSpeed (baseSpeed + dist * speedIncreaseRate),
      distanceTraveled := dist,
      worldOffset := w.worldOffset + scrollAmount,
      lastBuildingEnd := w.lastBuildingEnd,
      difficulty := 1 + dist / 3000 }
  let w2 := genLoopUpdate fuel w1 σ 0
  { w2 with lastBuildingEnd := w2.lastBuildingEnd - scrollAmount }

/-- `World.getBuildingAt(x, width)`: first active building whose closed
span `[b.x, b.x + b.width]` contains `x` (`width` is ignored by the
source as well). -/
def getBuildingAt (bs : List Building) (x width : ℚ) : Option Building :=
  match bs with
  | [] => none
  | b :: rest =>
    if b.active = true ∧ b.x ≤ x ∧ x ≤ b.x + b.width then some b
    else getBuildingAt rest x width

end World

/-- Player kinematic and cosmetic state; trail entries are
`(x, y, alpha)` triples. -/
structure PlayerState where
  x : ℚ
  y : ℚ
  width : ℚ
  height : ℚ
  velocityX : ℚ
  velocityY : ℚ
  grounded : Bool
  alive : Bool
  isJumping : Bool
  jumpHoldTimer : ℚ
  animationFrame : ℕ
  animationTimer : ℚ
  trail : List (ℚ × ℚ × ℚ)
deriving Repr, DecidableEq

namespace Physics

def gravity : ℚ := 3 / 5

def terminalVelocity : ℚ := 15

/-- `Physics.applyGravity(entity, deltaTime)`: `vy += gravity * dt`,
then cap at `terminalVelocity`; no other field is touched. -/
def applyGravity (e : PlayerState) (deltaTime : ℚ) : PlayerState :=
  let v := e.velocityY + gravity * deltaTime
  { e with velocityY := if v > terminalVelocity then terminalVelocity else v }

/-- An axis-aligned rectangle, as consumed by `Physics.checkCollision`. -/
structure Rect where
  x : ℚ
  y : ℚ
  width : ℚ
  height : ℚ

/-- `Physics.checkCollision(a, b)`: the strict AABB overlap test. -/
def checkCollision (a b : Rect) : Bool :=
  if a.x < b.x + b.width ∧ a.x + a.width > b.x ∧
     a.y < b.y + b.height ∧ a.y + a.height > b.y then true else false

/-- `Physics.resolveGroundCollision(entity, groundY)`: snap onto the
ground when the bottom edge penetrates it; returns the updated entity
together with the source's boolean result. -/
def resolveGroundCollision (e : PlayerState) (gY : ℚ) : PlayerState × Bool :=
  if e.y + e.height > gY then
    ({ e with y := gY - e.height, velocityY := 0, grounded := true }, true)
  else (e, false)

end Physics

namespace Player

def jumpPower : ℚ := -12

def jumpHoldPower : ℚ := -3 / 10

def maxJumpHoldTime : ℚ := 150

def animationSpeed : ℚ := 80

def maxTrailLength : ℕ := 6

/-- The `Player` constructor state at `(x, y)`. -/
def mk0 (x y : ℚ) : PlayerState :=
  { x := x, y := y, width := 32, height := 48, velocityX := 0, velocityY := 0,
    grounded := false, alive := true, isJumping := false, jumpHoldTimer := 0,
    animationFrame := 0, animationTimer := 0, trail := [] }

/-- `Player.jump()`: fires only while grounded; sets `vy = jumpPower`,
leaves the ground, starts the hold timer. -/
def jump (p : PlayerState) : PlayerState :=
  if p.grounded = true then
    { p with
      velocityY := jumpPower, grounded := false, isJumping := true,
      jumpHoldTimer := 0 }
  else p

/-- `Player.holdJump(deltaTime)`: the variable-height boost, applied only
while jumping, within the hold window, and still rising. -/
def holdJump (p : PlayerState) (deltaTime : ℚ) : PlayerState :=
  if p.isJumping = true ∧ p.jumpHoldTimer < maxJumpHoldTime ∧ p.velocityY < 0 then
    { p with
      velocityY := p.velocityY + jumpHoldPower,
      jumpHoldTimer := p.jumpHoldTimer + deltaTime }
  else p

/-- `Player.releaseJump()`. -/
def releaseJump (p : PlayerState) : PlayerState := { p with isJumping := false }

/-- `Player.die()`. -/
def die (p : PlayerState) : PlayerState := { p with alive := false }

/-- `Player.landOnBuilding(rooftopY)`. -/
def landOnBuilding (p : PlayerState) (rooftopY : ℚ) : PlayerState :=
  { p with
    y := rooftopY - p.height, velocityY := 0, grounded := true,
    isJumping := false }

/-- `Player.reset(x, y)`: restores the kinematic and life state; note
the source leaves `jumpHoldTimer` and `animationTimer` untouched. -/
def reset (p : PlayerState) (x y : ℚ) : PlayerState :=
  { p with
    x := x, y := y, velocityX := 0, velocityY := 0, grounded := false,
    alive := true, isJumping := false, trail := [], animationFrame := 0 }

/-- The trail fade loop: `trail[i].alpha = 1 - i / maxTrailLength`. -/
def fadeTrail : ℕ → List (ℚ × ℚ × ℚ) → List (ℚ × ℚ × ℚ)
  | _, [] => []
  | i, (tx, ty, _) :: rest => (tx, ty, 1 - (i : ℚ) / 6) :: fadeTrail (i + 1) rest

/-- The physics part of `Player.update(deltaTime, groundY)`: gravity
(scaled by `dt / 16.67`), position integration, ground resolution. -/
def physStep (p : PlayerState) (deltaTime gY : ℚ) : PlayerState :=
  let pg := Physics.applyGravity p (deltaTime / World.frameRef)
  let pm := { pg with y := pg.y + pg.velocityY * (deltaTime / World.frameRef) }
  let res := Physics.resolveGroundCollision pm gY
  if res.2 = true then { res.1 with grounded := true, isJumping := false }
  else { res.1 with grounded := false }

/-- The cosmetic tail of `Player.update`: animation-frame bookkeeping
and the fading trail buffer. -/
def cosmetics (ps : PlayerState) (deltaTime : ℚ) : PlayerState :=
  let pa :=
    if ps.animationTimer + deltaTime ≥ animationSpeed then
      { ps with animationTimer := 0, animationFrame := (ps.animationFrame + 1) % 4 }
    else { ps with animationTimer := ps.animationTimer + deltaTime }
  { pa with trail := fadeTrail 0 (((pa.x, pa.y, (1 : ℚ)) :: pa.trail).take maxTrailLength) }

/-- `Player.update(deltaTime, groundY)`: the physics step followed by
the cosmetic bookkeeping. -/
def update (p : PlayerState) (deltaTime gY : ℚ) : PlayerState :=
  cosmetics (physStep p deltaTime gY) deltaTime

end Player

/-- The outcome of one `Game.update` tick: the updated world and player,
and whether the game-over transition fired on this tick. -/
structure TickResult where
  world : WorldState
  player : PlayerState
  gameOver : Bool
deriving Repr

namespace Game

def canvasHeight : ℚ := 600

/-- The side-collision test of `Game.update`: the player's right edge is
past the building's left face, its own left edge is not, its bottom is
below the rooftop line by more than the 10-pixel tolerance, and its top
is above the bottom of the viewport. -/
def sideHit (q : PlayerState) (b : Building) : Prop :=
  q.x + q.width > b.x ∧ q.x < b.x ∧ q.y + q.height > b.y + 10 ∧ q.y < canvasHeight

instance (q : PlayerState) (b : Building) : Decidable (sideHit q b) := by
  unfold sideHit; infer_instance

/-- The side-collision `for` loop of `Game.update`: first active
building hitting the player from the side, if any. -/
def findSideHit (q : PlayerState) : List Building → Option Building
  | [] => none
  | b :: rest => if b.active = true ∧ sideHit q b then some b else findSideHit q rest

/-- The tail of `Game.update` after landing resolution: the
side-collision loop, then the fell-off-screen check, then the surviving
path. -/
def sidePhase (wpost : WorldState) (q : PlayerState) : TickResult :=
  match findSideHit q wpost.buildings with
  | some _ => ⟨wpost, Player.die q, true⟩
  | none =>
    if q.y > canvasHeight + 50 then ⟨wpost, Player.die q, true⟩
    else ⟨wpost, q, false⟩

/-- The resolved ground level of `Game.update`: the rooftop of the
building under the player's feet, or `canvasHeight + 500` over a gap. -/
def groundLevel (cb : Option Building) : ℚ :=
  match cb with
  | some b => b.y
  | none => canvasHeight + 500

/-- The player after the held-jump boost at the top of `Game.update`
(`if (this.keys.jump) this.player.holdJump(this.deltaTime)`). -/
def heldPlayer (p : PlayerState) (deltaTime : ℚ) (jumpHeld : Bool) : PlayerState :=
  if jumpHeld = true then Player.holdJump p deltaTime else p

/-- `this.world.getBuildingAt(playerFeetX, 1)` as evaluated by
`Game.update` (the feet position is the player's horizontal centre). -/
def currentBuildingOf (wpost : WorldState) (p : PlayerState) (deltaTime : ℚ)
    (jumpHeld : Bool) : Option Building :=
  World.getBuildingAt wpost.buildings
    ((heldPlayer p deltaTime jumpHeld).x + (heldPlayer p deltaTime jumpHeld).width / 2) 1

/-- The player state right after `this.player.update(deltaTime, groundY)`
inside `Game.update`: held-jump boost, walked-off-edge release, then
player physics against the resolved ground level. -/
def preLandingPlayer (wpost : WorldState) (p : PlayerState) (deltaTime : ℚ)
    (jumpHeld : Bool) : PlayerState :=
  let p0 := heldPlayer p deltaTime jumpHeld
  let cb := currentBuildingOf wpost p deltaTime jumpHeld
  let p1 := if p0.grounded = true ∧ cb = none then { p0 with grounded := false } else p0
  Player.update p1 deltaTime (groundLevel cb)

/-- The landing block of `Game.update`: when the player was airborne, is
now moving down, is over a building, and its bottom crossed the rooftop
line this tick, either land (previous top strictly above the rooftop) or
die on a side/bottom impact; the boolean records the early-return
death. -/
def landingResolve (p2 : PlayerState) (prevY : ℚ) (wasGrounded : Bool)
    (cb : Option Building) : PlayerState × Bool :=
  match cb with
  | some b =>
    if wasGrounded = false ∧ p2.velocityY > 0 ∧ prevY + p2.height ≤ b.y + 5 ∧
       b.y ≤ p2.y + p2.height then
      if prevY < b.y then (Player.landOnBuilding p2 b.y, false)
      else (Player.die p2, true)
    else (p2, false)
  | none => (p2, false)

/-- The player state (and early-death flag) with which `Game.update`
enters the side-collision loop. -/
def sideLoopEntry (wpost : WorldState) (p : PlayerState) (deltaTime : ℚ)
    (jumpHeld : Bool) : PlayerState × Bool :=
  landingResolve (preLandingPlayer wpost p deltaTime jumpHeld)
    (heldPlayer p deltaTime jumpHeld).y (heldPlayer p deltaTime jumpHeld).grounded
    (currentBuildingOf wpost p deltaTime jumpHeld)

/-- `Game.update` after the call to `world.update`: held-jump boost,
platform query at the feet position, walked-off-edge release, player
physics, landing resolution (with its early return), side collisions,
fall-off-screen. -/
def tickAfterWorld (wpost : WorldState) (p : PlayerState) (deltaTime : ℚ)
    (jumpHeld : Bool) : TickResult :=
  let lr := sideLoopEntry wpost p deltaTime jumpHeld
  if lr.2 = true then ⟨wpost, lr.1, true⟩ else sidePhase wpost lr.1

/-- One full `Game.update` tick while playing. -/
def update (w : WorldState) (p : PlayerState) (deltaTime : ℚ) (jumpHeld : Bool)
    (σ : DrawStream) (fuel : ℕ) : TickResult :=
  tickAfterWorld (World.update w deltaTime σ fuel) p deltaTime jumpHeld

end Game

/-! ### Basic facts about the embedded operations -/

lemma if_gt_eq_min (v t : ℚ) : (if v > t then t else v) = min v t := by
  rcases le_or_lt v t with h | h
  · rw [if_neg (not_lt.mpr h), min_eq_left h]
  · rw [if_pos h, min_eq_right h.le]

namespace Physics

lemma applyGravity_velocityY (e : PlayerState) (dt : ℚ) :
    (applyGravity e dt).velocityY = min (e.velocityY + gravity * dt) terminalVelocity := by
  simp only [applyGravity]
  exact if_gt_eq_min _ _

lemma applyGravity_fields (e : PlayerState) (dt : ℚ) :
    (applyGravity e dt).x = e.x ∧ (applyGravity e dt).y = e.y ∧
    (applyGravity e dt).velocityX = e.velocityX ∧
    (applyGravity e dt).width = e.width ∧ (applyGravity e dt).height = e.height ∧
    (applyGravity e dt).grounded = e.grounded ∧ (applyGravity e dt).alive = e.alive ∧
    (applyGravity e dt).isJumping = e.isJumping ∧
    (applyGravity e dt).jumpHoldTimer = e.jumpHoldTimer ∧
    (applyGravity e dt).animationFrame = e.animationFrame ∧
    (applyGravity e dt).animationTimer = e.animationTimer ∧
    (applyGravity e dt).trail = e.trail := by
  simp [applyGravity]

end Physics

/-- C9: `physics.applyGravity(entity, deltaTime)` sets `velocityY` to
`velocityY + gravity * deltaTime` capped above at `terminalVelocity`
(so the result never exceeds 15), and mutates nothing else: every other
field of the entity is unchanged, and the physics object itself holds
only the constants `gravity` and `terminalVelocity` (the embedding is a
pure function, matching the absence of any other mutated state). -/
theorem applyGravity_only_velocityY : ∀ (e : PlayerState) (dt : ℚ),
    (Physics.applyGravity e dt).velocityY
      = min (e.velocityY + Physics.gravity * dt) Physics.terminalVelocity ∧
    (Physics.applyGravity e dt).velocityY ≤ 15 ∧
    (Physics.applyGravity e dt).x = e.x ∧ (Physics.applyGravity e dt).y = e.y ∧
    (Physics.applyGravity e dt).velocityX = e.velocityX ∧
    (Physics.applyGravity e dt).width = e.width ∧
    (Physics.applyGravity e dt).height = e.height ∧
    (Physics.applyGravity e dt).grounded = e.grounded ∧
    (Physics.applyGravity e dt).alive = e.alive ∧
    (Physics.applyGravity e dt).isJumping = e.isJumping ∧
    (Physics.applyGravity e dt).jumpHoldTimer = e.jumpHoldTimer ∧
    (Physics.applyGravity e dt).animationFrame = e.animationFrame ∧
    (Physics.applyGravity e dt).animationTimer = e.animationTimer ∧
    (Physics.applyGravity e dt).trail = e.trail := by
  intro e dt
  refine ⟨Physics.applyGravity_velocityY e dt, ?_, Physics.applyGravity_fields e dt⟩
  rw [Physics.applyGravity_velocityY e dt]
  exact min_le_right _ _

/-- C8: `physics.checkCollision(a, b)` returns `true` exactly when the
four strict inequalities of the half-open AABB test hold; in particular
rectangles that merely touch along an edge (`a.x + a.width = b.x`) are
never reported as overlapping. -/
theorem checkCollision_halfopen :
    (∀ a b : Physics.Rect,
      Physics.checkCollision a b = true ↔
        (a.x < b.x + b.width ∧ a.x + a.width > b.x ∧
         a.y < b.y + b.height ∧ a.y + a.height > b.y)) ∧
    (∀ a b : Physics.Rect, a.x + a.width = b.x → Physics.checkCollision a b = false) := by
  constructor
  · intro a b
    simp only [Physics.checkCollision]
    split_ifs with hcond <;> simp [hcond]
  · intro a b h
    simp only [Physics.checkCollision]
    rw [if_neg]
    rintro ⟨-, h2, -, -⟩
    rw [h] at h2
    exact lt_irrefl _ h2

/-- C8 witness: two 10×10 squares touching along a vertical edge do not
collide. -/
theorem checkCollision_halfopen_witness :
    Physics.checkCollision ⟨0, 0, 10, 10⟩ ⟨10, 0, 10, 10⟩ = false :=
  checkCollision_halfopen.2 ⟨0, 0, 10, 10⟩ ⟨10, 0, 10, 10⟩ (by norm_num)

/-- C5: `Player.jump` invoked while grounded immediately (within the
same call, hence the same tick that `Game.handleKeyDown` processes the
input) sets `velocityY = jumpPower = -12`, `grounded = false`,
`isJumping = true` and `jumpHoldTimer = 0`; invoked while airborne it
returns the player unchanged. -/
theorem jump_same_tick :
    (∀ p : PlayerState, p.grounded = true →
      Player.jump p = { p with
                        velocityY := Player.jumpPower, grounded := false,
                        isJumping := true, jumpHoldTimer := 0 }) ∧
    (∀ p : PlayerState, p.grounded = false → Player.jump p = p) := by
  constructor
  · intro p h
    simp [Player.jump, h]
  · intro p h
    simp [Player.jump, h]

/-- C5 witness: a concrete grounded player jumps on the spot, and a
concrete airborne player is untouched. -/
theorem jump_same_tick_witness :
    Player.jump { Player.mk0 100 452 with grounded := true }
      = { { Player.mk0 100 452 with grounded := true } with
          velocityY := Player.jumpPower, grounded := false,
          isJumping := true, jumpHoldTimer := 0 } ∧
    Player.jump (Player.mk0 100 452) = Player.mk0 100 452 :=
  ⟨jump_same_tick.1 _ rfl, jump_same_tick.2 _ rfl⟩

/-! ### Scalar fields are untouched by building generation -/

namespace World

lemma addBuilding_scalars (w : WorldState) (x y width uStyle : ℚ) :
    (addBuilding w x y width uStyle).scrollSpeed = w.scrollSpeed ∧
    (addBuilding w x y width uStyle).distanceTraveled = w.distanceTraveled ∧
    (addBuilding w x y width uStyle).worldOffset = w.worldOffset ∧
    (addBuilding w x y width uStyle).difficulty = w.difficulty ∧
    (addBuilding w x y width uStyle).lastBuildingEnd = w.lastBuildingEnd := by
  simp [addBuilding]

lemma generateNextBuilding_scalars (w : WorldState) (u1 u2 u3 u4 : ℚ) :
    (generateNextBuilding w u1 u2 u3 u4).scrollSpeed = w.scrollSpeed ∧
    (generateNextBuilding w u1 u2 u3 u4).distanceTraveled = w.distanceTraveled ∧
    (generateNextBuilding w u1 u2 u3 u4).worldOffset = w.worldOffset ∧
    (generateNextBuilding w u1 u2 u3 u4).difficulty = w.difficulty := by
  simp [generateNextBuilding, addBuilding]

lemma genLoopUpdate_scalars (fuel : ℕ) :
    ∀ (w : WorldState) (σ : DrawStream) (i : ℕ),
    (genLoopUpdate fuel w σ i).scrollSpeed = w.scrollSpeed ∧
    (genLoopUpdate fuel w σ i).distanceTraveled = w.distanceTraveled ∧
    (genLoopUpdate fuel w σ i).worldOffset = w.worldOffset ∧
    (genLoopUpdate fuel w σ i).difficulty = w.difficulty := by
  induction fuel with
  | zero => intro w σ i; simp [genLoopUpdate]
  | succ f ih =>
    intro w σ i
    simp only [genLoopUpdate]
    split
    · have h1 := ih (generateNextBuilding w (σ i) (σ (i+1)) (σ (i+2)) (σ (i+3))) σ (i + 4)
      have h2 := generateNextBuilding_scalars w (σ i) (σ (i+1)) (σ (i+2)) (σ (i+3))
      exact ⟨h1.1.trans h2.1, h1.2.1.trans h2.2.1, h1.2.2.1.trans h2.2.2.1,
             h1.2.2.2.trans h2.2.2.2⟩
    · exact ⟨rfl, rfl, rfl, rfl⟩

lemma genLoopInit_scalars (fuel : ℕ) :
    ∀ (w : WorldState) (σ : DrawStream) (i : ℕ),
    (genLoopInit fuel w σ i).scrollSpeed = w.scrollSpeed ∧
    (genLoopInit fuel w σ i).distanceTraveled = w.distanceTraveled ∧
    (genLoopInit fuel w σ i).worldOffset = w.worldOffset ∧
    (genLoopInit fuel w σ i).difficulty = w.difficulty := by
  induction fuel with
  | zero => intro w σ i; simp [genLoopInit]
  | succ f ih =>
    intro w σ i
    simp only [genLoopInit]
    split
    · have h1 := ih (generateNextBuilding w (σ i) (σ (i+1)) (σ (i+2)) (σ (i+3))) σ (i + 4)
      have h2 := generateNextBuilding_scalars w (σ i) (σ (i+1)) (σ (i+2)) (σ (i+3))
      exact ⟨h1.1.trans h2.1, h1.2.1.trans h2.2.1, h1.2.2.1.trans h2.2.2.1,
             h1.2.2.2.trans h2.2.2.2⟩
    · exact ⟨rfl, rfl, rfl, rfl⟩

lemma generateInitialBuildings_scalars (w : WorldState) (σ : DrawStream) (fuel : ℕ) :
    (generateInitialBuildings w σ fuel).scrollSpeed = w.scrollSpeed ∧
    (generateInitialBuildings w σ fuel).distanceTraveled = w.distanceTraveled ∧
    (generateInitialBuildings w σ fuel).worldOffset = w.worldOffset ∧
    (generateInitialBuildings w σ fuel).difficulty = w.difficulty := by
  simp only [generateInitialBuildings]
  have h1 := genLoopInit_scalars fuel
    { addBuilding w 0 groundY 400 (σ 0) with lastBuildingEnd := 400 } σ 1
  have h2 := addBuilding_scalars w 0 groundY 400 (σ 0)
  exact ⟨h1.1.trans h2.1, h1.2.1.trans h2.2.1, h1.2.2.1.trans h2.2.2.1,
         h1.2.2.2.trans h2.2.2.2.1⟩

lemma reset_eq_initWorld (w : WorldState) (σ : DrawStream) (fuel : ℕ) :
    reset w σ fuel = initWorld σ fuel := rfl

end World

/-- C7: reset is idempotent. `Player.reset` applied twice with the same
arguments equals a single application (in fact they agree on every
field), and its deterministic fields match the constructor state;
`World.reset` applied twice equals a single application (the second call
wipes every field the first one set), and its deterministic fields
(`scrollSpeed = baseSpeed`, `distanceTraveled = 0`, `worldOffset = 0`,
`difficulty = 1`) match the initial-run world for any draw stream; the
remaining fields (buildings, frontier) are derived from fresh RNG
draws. -/
theorem reset_idempotent :
    (∀ (p : PlayerState) (x y : ℚ),
      Player.reset (Player.reset p x y) x y = Player.reset p x y) ∧
    (∀ (p : PlayerState) (x y : ℚ),
      (Player.reset p x y).x = x ∧ (Player.reset p x y).y = y ∧
      (Player.reset p x y).velocityX = 0 ∧ (Player.reset p x y).velocityY = 0 ∧
      (Player.reset p x y).grounded = false ∧ (Player.reset p x y).alive = true ∧
      (Player.reset p x y).isJumping = false ∧ (Player.reset p x y).trail = [] ∧
      (Player.reset p x y).animationFrame = 0 ∧
      (Player.mk0 x y).velocityY = 0 ∧ (Player.mk0 x y).grounded = false ∧
      (Player.mk0 x y).alive = true ∧ (Player.mk0 x y).isJumping = false ∧
      (Player.mk0 x y).trail = [] ∧ (Player.mk0 x y).animationFrame = 0) ∧
    (∀ (w : WorldState) (σ1 σ2 : DrawStream) (f1 f2 : ℕ),
      World.reset (World.reset w σ1 f1) σ2 f2 = World.reset w σ2 f2) ∧
    (∀ (w : WorldState) (σ : DrawStream) (fuel : ℕ),
      (World.reset w σ fuel).scrollSpeed = World.baseSpeed ∧
      (World.reset w σ fuel).distanceTraveled = 0 ∧
      (World.reset w σ fuel).worldOffset = 0 ∧
      (World.reset w σ fuel).difficulty = 1 ∧
      World.reset w σ fuel = World.initWorld σ fuel) := by
  refine ⟨?_, ?_, ?_, ?_⟩
  · intro p x y
    simp [Player.reset]
  · intro p x y
    simp [Player.reset, Player.mk0]
  · intro w σ1 σ2 f1 f2
    rw [World.reset_eq_initWorld, World.reset_eq_initWorld]
  · intro w σ fuel
    rw [World.reset_eq_initWorld]
    have h := World.generateInitialBuildings_scalars
      { buildings := [], scrollSpeed := World.baseSpeed, distanceTraveled := 0,
        worldOffset := 0, lastBuildingEnd := 0, difficulty := 1 } σ fuel
    exact ⟨h.1, h.2.1, h.2.2.1, h.2.2.2, rfl⟩

/-! ### The structural invariant of the generated building list -/

/-- The structural shape every reachable building list has: spans in
generation order separated by more than a player width (33 > 32),
widths at least the generation floor 120, and rooftops inside the
clamp range `[groundY - 100, groundY + 60] = [400, 560]`. -/
def BuildingsOK (bs : List Building) : Prop :=
  bs.Pairwise (fun A B => A.x + A.width + 33 ≤ B.x) ∧
  (∀ b ∈ bs, 120 ≤ b.width) ∧
  (∀ b ∈ bs, 400 ≤ b.y ∧ b.y ≤ 560)

lemma pairwise_rel_of_mem {α : Type} {r : α → α → Prop} :
    ∀ {l : List α} {a b : α}, l.Pairwise r → a ∈ l → b ∈ l →
      a = b ∨ r a b ∨ r b a := by
  intro l
  induction l with
  | nil => intro a b _ ha _; cases ha
  | cons x xs ih =>
    intro a b hp ha hb
    rw [List.pairwise_cons] at hp
    rcases List.mem_cons.mp ha with rfl | ha2
    · rcases List.mem_cons.mp hb with rfl | hb2
      · exact Or.inl rfl
      · exact Or.inr (Or.inl (hp.1 _ hb2))
    · rcases List.mem_cons.mp hb with rfl | hb2
      · exact Or.inr (Or.inr (hp.1 _ ha2))
      · exact ih hp.2 ha2 hb2

namespace World

lemma getBuildingAt_eq_some :
    ∀ {bs : List Building} {x wdt : ℚ} {b : Building},
      getBuildingAt bs x wdt = some b →
      b ∈ bs ∧ b.active = true ∧ b.x ≤ x ∧ x ≤ b.x + b.width := by
  intro bs
  induction bs with
  | nil => intro x wdt b h; simp [getBuildingAt] at h
  | cons c rest ih =>
    intro x wdt b h
    simp only [getBuildingAt] at h
    split_ifs at h with hc
    · cases h
      exact ⟨List.mem_cons_self _ _, hc.1, hc.2.1, hc.2.2⟩
    · have := ih h
      exact ⟨List.mem_cons_of_mem _ this.1, this.2⟩

lemma getBuildingAt_covers :
    ∀ {bs : List Building} {x wdt : ℚ} {b : Building},
      b ∈ bs → b.active = true → b.x ≤ x → x ≤ b.x + b.width →
      ∃ c, getBuildingAt bs x wdt = some c ∧
        c.active = true ∧ c.x ≤ x ∧ x ≤ c.x + c.width := by
  intro bs
  induction bs with
  | nil => intro x wdt b h; cases h
  | cons c rest ih =>
    intro x wdt b hb hact hlo hhi
    simp only [getBuildingAt]
    split_ifs with hc
    · exact ⟨c, rfl, hc.1, hc.2.1, hc.2.2⟩
    · rcases List.mem_cons.mp hb with rfl | hb2
      · exact absurd ⟨hact, hlo, hhi⟩ hc
      · exact ih hb2 hact hlo hhi

lemma getBuildingAt_eq_none :
    ∀ {bs : List Building} {x wdt : ℚ},
      getBuildingAt bs x wdt = none →
      ∀ b ∈ bs, b.active = true → x < b.x ∨ b.x + b.width < x := by
  intro bs
  induction bs with
  | nil => intro x wdt _ b hb; cases hb
  | cons c rest ih =>
    intro x wdt h b hb hact
    simp only [getBuildingAt] at h
    split_ifs at h with hc
    rcases List.mem_cons.mp hb with rfl | hb2
    · rcases not_and.mp hc hact with hno
      rcases lt_or_le x b.x with hlt | hle
      · exact Or.inl hlt
      · right
        by_contra hcon
        exact hno ⟨hle, (not_lt.mp hcon)⟩
    · exact ih h b hb2 hact

lemma getBuildingAt_right_edge_aux :
    ∀ {bs : List Building} {b : Building} (wdt : ℚ),
      bs.Pairwise (fun A B => A.x + A.width + 33 ≤ B.x) →
      (∀ a ∈ bs, (120 : ℚ) ≤ a.width) → b ∈ bs → b.active = true →
      getBuildingAt bs (b.x + b.width) wdt = some b := by
  intro bs
  induction bs with
  | nil => intro b wdt _ _ hb _; cases hb
  | cons c rest ih =>
    intro b wdt hpw hwid hb hact
    have hbw : (120 : ℚ) ≤ b.width := hwid b hb
    simp only [getBuildingAt]
    split_ifs with hc
    · rcases pairwise_rel_of_mem hpw (List.mem_cons_self c rest) hb with rfl | hcb | hbc
      · rfl
      · exfalso
        have h2 := hc.2.2
        have hcb2 : c.x + c.width + 33 ≤ b.x := hcb
        linarith
      · exfalso
        have h1 := hc.2.1
        have hbc2 : b.x + b.width + 33 ≤ c.x := hbc
        linarith
    · rcases List.mem_cons.mp hb with rfl | hb2
      · exact absurd ⟨hact, by linarith, le_refl _⟩ hc
      · exact ih wdt (List.pairwise_cons.mp hpw).2
          (fun a ha => hwid a (List.mem_cons_of_mem _ ha)) hb2 hact

lemma getBuildingAt_right_edge {bs : List Building} {b : Building} (wdt : ℚ)
    (hOK : BuildingsOK bs) (hb : b ∈ bs) (hact : b.active = true) :
    getBuildingAt bs (b.x + b.width) wdt = some b :=
  getBuildingAt_right_edge_aux wdt hOK.1 hOK.2.1 hb hact

end World

/-- C10: `World.getBuildingAt(x, width)` treats building spans as
closed intervals: it returns an active building containing `x` whenever
some active building's closed span `[b.x, b.x + b.width]` contains `x`;
it returns `null` only when `x` lies strictly outside every active
span; and in a structurally sound world (as every reachable world is) a
feet coordinate equal to a building's right edge exactly still resolves
to that building, so `Game.update` uses `groundY = b.y` there rather
than the gap fall-through level. -/
theorem getBuildingAt_closed_interval :
    (∀ (bs : List Building) (x wdt : ℚ) (b : Building),
      b ∈ bs → b.active = true → b.x ≤ x → x ≤ b.x + b.width →
      ∃ c, World.getBuildingAt bs x wdt = some c ∧
        c.active = true ∧ c.x ≤ x ∧ x ≤ c.x + c.width) ∧
    (∀ (bs : List Building) (x wdt : ℚ),
      World.getBuildingAt bs x wdt = none →
      ∀ b ∈ bs, b.active = true → x < b.x ∨ b.x + b.width < x) ∧
    (∀ (bs : List Building) (wdt : ℚ) (b : Building),
      BuildingsOK bs → b ∈ bs → b.active = true →
      World.getBuildingAt bs (b.x + b.width) wdt = some b ∧
      Game.groundLevel (World.getBuildingAt bs (b.x + b.width) wdt) = b.y) := by
  refine ⟨?_, ?_, ?_⟩
  · intro bs x wdt b hb hact hlo hhi
    exact World.getBuildingAt_covers hb hact hlo hhi
  · intro bs x wdt h b hb hact
    exact World.getBuildingAt_eq_none h b hb hact
  · intro bs wdt b hOK hb hact
    have h := World.getBuildingAt_right_edge wdt hOK hb hact
    exact ⟨h, by rw [h]; rfl⟩

/-- C10 witness: with a single building spanning `[0, 400]` at rooftop
500, the query at the exact right edge 400 still resolves to it and the
resolved ground level is its rooftop. -/
theorem getBuildingAt_closed_interval_witness :
    World.getBuildingAt [⟨0, 500, 400, 300, true, 0⟩] 400 1
        = some ⟨0, 500, 400, 300, true, 0⟩ ∧
    Game.groundLevel (World.getBuildingAt [⟨0, 500, 400, 300, true, 0⟩] 400 1) = 500 := by
  have h := getBuildingAt_closed_interval.2.2 [⟨0, 500, 400, 300, true, 0⟩] 1
    ⟨0, 500, 400, 300, true, 0⟩
    (by
      refine ⟨List.pairwise_singleton _ _, ?_, ?_⟩ <;>
        · intro b hb
          rw [List.mem_singleton] at hb
          subst hb
          norm_num)
    (List.mem_singleton_self _) rfl
  have hx : (0 : ℚ) + 400 = 400 := by norm_num
  rw [hx] at h
  exact h

/-! ### Bounds on the modelled random draws -/

lemma randQ_bounds {lo hi u : ℚ} (h0 : 0 ≤ u) (h1 : u ≤ 1) (hlh : lo ≤ hi) :
    lo ≤ randQ lo hi u ∧ randQ lo hi u ≤ hi := by
  unfold randQ
  constructor <;> nlinarith

lemma clampQ_bounds {v lo hi : ℚ} (hlh : lo ≤ hi) :
    lo ≤ clampQ v lo hi ∧ clampQ v lo hi ≤ hi := by
  unfold clampQ
  exact ⟨le_max_left _ _, max_le hlh (min_le_left _ _)⟩

namespace World

lemma one_le_mult {w : WorldState} (hd : 1 ≤ w.difficulty) :
    1 ≤ min w.difficulty 2 := le_min hd (by norm_num)

lemma gapDraw_bounds {w : WorldState} {u : ℚ}
    (hd : 1 ≤ w.difficulty) (h0 : 0 ≤ u) (h1 : u ≤ 1) :
    minGap * min w.difficulty 2 ≤ gapDraw w u ∧
    gapDraw w u ≤ maxGap * min w.difficulty 2 := by
  have hm : 1 ≤ min w.difficulty 2 := one_le_mult hd
  have hlh : minGap * min w.difficulty 2 ≤ maxGap * min w.difficulty 2 := by
    unfold minGap maxGap; nlinarith
  exact randQ_bounds h0 h1 hlh

lemma widthDraw_bounds {w : WorldState} {u : ℚ} (h0 : 0 ≤ u) (h1 : u ≤ 1) :
    120 ≤ widthDraw w u := by
  have hlh : max (minBuildingWidth - min (w.difficulty * 20) 150) 120 ≤
      max (maxBuildingWidth - min (w.difficulty * 20) 150) 250 := by
    apply max_le_max
    · unfold minBuildingWidth maxBuildingWidth; linarith
    · norm_num
  have h := randQ_bounds h0 h1 hlh
  exact le_trans (le_max_right _ _) h.1

lemma newYDraw_bounds (w : WorldState) (u : ℚ) :
    400 ≤ newYDraw w u ∧ newYDraw w u ≤ 560 := by
  unfold newYDraw
  have h400 : groundY - 100 = 400 := by norm_num [groundY, canvasHeight]
  have h560 : groundY + 60 = 560 := by norm_num [groundY, canvasHeight]
  rw [h400, h560]
  exact clampQ_bounds (by norm_num)

lemma generateNextBuilding_buildings (w : WorldState) (u1 u2 u3 u4 : ℚ) :
    (generateNextBuilding w u1 u2 u3 u4).buildings = w.buildings ++
      [⟨w.lastBuildingEnd + gapDraw w u1, newYDraw w u3, widthDraw w u2,
        canvasHeight - newYDraw w u3 + 200, true, randIntQ 0 2 u4⟩] := by
  simp [generateNextBuilding, addBuilding]

lemma generateNextBuilding_end (w : WorldState) (u1 u2 u3 u4 : ℚ) :
    (generateNextBuilding w u1 u2 u3 u4).lastBuildingEnd =
      w.lastBuildingEnd + gapDraw w u1 + widthDraw w u2 := by
  simp [generateNextBuilding, addBuilding]

end World

/-- C6: every `World.generateNextBuilding` call places the new building
at `x = lastBuildingEnd + gap` where, for every outcome of the
`Math.random()` draw (any value in `[0, 1)`),
`minGap * min(difficulty, 2) ≤ gap ≤ maxGap * min(difficulty, 2)`;
with `minGap = 80`, `maxGap = 200` and `difficulty ≥ 1` this gives
`80 ≤ gap ≤ 400`: gaps are strictly positive and difficulty widens them
by a factor capped at 2. -/
theorem gap_bounds (w : WorldState) (u1 u2 u3 u4 : ℚ)
    (hd : 1 ≤ w.difficulty) (h0 : 0 ≤ u1) (h1 : u1 < 1) :
    World.minGap * min w.difficulty 2 ≤ World.gapDraw w u1 ∧
    World.gapDraw w u1 ≤ World.maxGap * min w.difficulty 2 ∧
    80 ≤ World.gapDraw w u1 ∧ World.gapDraw w u1 ≤ 400 ∧
    0 < World.gapDraw w u1 ∧
    ∃ nb : Building,
      (World.generateNextBuilding w u1 u2 u3 u4).buildings = w.buildings ++ [nb] ∧
      nb.x = w.lastBuildingEnd + World.gapDraw w u1 ∧
      (World.generateNextBuilding w u1 u2 u3 u4).lastBuildingEnd = nb.x + nb.width := by
  have hm1 : 1 ≤ min w.difficulty 2 := World.one_le_mult hd
  have hm2 : min w.difficulty 2 ≤ 2 := min_le_right _ _
  have hb := World.gapDraw_bounds hd h0 (le_of_lt h1)
  have h80 : (80 : ℚ) ≤ World.gapDraw w u1 := by
    have : (80 : ℚ) ≤ World.minGap * min w.difficulty 2 := by
      unfold World.minGap; nlinarith
    linarith [hb.1]
  have h400 : World.gapDraw w u1 ≤ 400 := by
    have : World.maxGap * min w.difficulty 2 ≤ 400 := by
      unfold World.maxGap; nlinarith
    linarith [hb.2]
  exact ⟨hb.1, hb.2, h80, h400, by linarith,
    ⟨_, World.generateNextBuilding_buildings w u1 u2 u3 u4, rfl,
      World.generateNextBuilding_end w u1 u2 u3 u4⟩⟩

/-- C6 witness: at difficulty 1 with minimal draws the gap is exactly
80, inside all the claimed bounds. -/
theorem gap_bounds_witness :
    80 ≤ World.gapDraw ⟨[], 6, 0, 0, 0, 1⟩ 0 ∧
    World.gapDraw ⟨[], 6, 0, 0, 0, 1⟩ 0 ≤ 400 := by
  have h := gap_bounds ⟨[], 6, 0, 0, 0, 1⟩ 0 0 0 0 (by norm_num) (by norm_num) (by norm_num)
  exact ⟨h.2.2.1, h.2.2.2.1⟩

/-! ### The reachable-world invariant -/

/-- The inductive invariant of `World`: the distance accumulator is
non-negative, speed and difficulty are the functions of distance the
source recomputes each tick, the building list is structurally sound,
and every building span ends at most `(10000/1667) * scrollSpeed`
(one capped frame of scroll, `scrollSpeed * (100 / 16.67)`) past the
`lastBuildingEnd` frontier counter. -/
def WInv (w : WorldState) : Prop :=
  0 ≤ w.distanceTraveled ∧
  w.scrollSpeed = min World.maxSpeed
    (World.baseSpeed + w.distanceTraveled * World.speedIncreaseRate) ∧
  w.difficulty = 1 + w.distanceTraveled / 3000 ∧
  BuildingsOK w.buildings ∧
  ∀ b ∈ w.buildings, b.x + b.width ≤ w.lastBuildingEnd + (10000 / 1667) * w.scrollSpeed

lemma WInv_speed_lb {w : WorldState} (h : WInv w) : 6 ≤ w.scrollSpeed := by
  obtain ⟨hd0, hsp, -, -, -⟩ := h
  rw [hsp]
  apply le_min
  · norm_num [World.maxSpeed]
  · unfold World.baseSpeed World.speedIncreaseRate
    nlinarith

lemma WInv_difficulty {w : WorldState} (h : WInv w) : 1 ≤ w.difficulty := by
  obtain ⟨hd0, -, hdf, -, -⟩ := h
  rw [hdf]
  linarith

/-- The key arithmetic fact behind no-overlap: one capped frame of
scroll (at the speed the ramp allows at distance `d`) plus the 33-pixel
separation margin never exceeds the minimum gap the difficulty at
distance `d` allows. -/
lemma key_gap (d : ℚ) (hd : 0 ≤ d) :
    (10000 / 1667) * min 14 (6 + d * (3 / 10000)) + 33 ≤
      80 * min (1 + d / 3000) 2 := by
  rcases le_or_lt (1 + d / 3000) 2 with h | h
  · rw [min_eq_left h]
    have h2 : min (14 : ℚ) (6 + d * (3 / 10000)) ≤ 6 + d * (3 / 10000) :=
      min_le_right _ _
    have h3 : (10000 / 1667 : ℚ) * min 14 (6 + d * (3 / 10000)) ≤
        (10000 / 1667) * (6 + d * (3 / 10000)) := by
      apply mul_le_mul_of_nonneg_left h2
      norm_num
    nlinarith
  · rw [min_eq_right h.le]
    have h2 : min (14 : ℚ) (6 + d * (3 / 10000)) ≤ 14 := min_le_left _ _
    have h3 : (10000 / 1667 : ℚ) * min 14 (6 + d * (3 / 10000)) ≤
        (10000 / 1667) * 14 := by
      apply mul_le_mul_of_nonneg_left h2
      norm_num
    nlinarith

namespace World

/-- One generation step preserves the structural invariant, for any
slack `c` between the frontier counter and the rightmost span that the
minimum gap still dominates. -/
lemma generateNextBuilding_inv {w : WorldState} (c u1 u2 u3 u4 : ℚ)
    (hc0 : 0 ≤ c) (hcgap : c + 33 ≤ 80 * min w.difficulty 2)
    (hd : 1 ≤ w.difficulty)
    (hu1 : 0 ≤ u1) (hu1b : u1 ≤ 1) (hu2 : 0 ≤ u2) (hu2b : u2 ≤ 1)
    (hOK : BuildingsOK w.buildings)
    (hend : ∀ b ∈ w.buildings, b.x + b.width ≤ w.lastBuildingEnd + c) :
    BuildingsOK (generateNextBuilding w u1 u2 u3 u4).buildings ∧
    ∀ b ∈ (generateNextBuilding w u1 u2 u3 u4).buildings,
      b.x + b.width ≤ (generateNextBuilding w u1 u2 u3 u4).lastBuildingEnd + c := by
  obtain ⟨hpw, hwid, hroof⟩ := hOK
  have hgap : 80 * min w.difficulty 2 ≤ gapDraw w u1 := by
    have h := (gapDraw_bounds hd hu1 hu1b).1
    unfold minGap at h
    exact h
  have hgap33 : c + 33 ≤ gapDraw w u1 := le_trans hcgap hgap
  have hwd : (120 : ℚ) ≤ widthDraw w u2 := widthDraw_bounds hu2 hu2b
  have hy := newYDraw_bounds w u3
  rw [generateNextBuilding_buildings, generateNextBuilding_end]
  constructor
  · refine ⟨?_, ?_, ?_⟩
    · rw [List.pairwise_append]
      refine ⟨hpw, List.pairwise_singleton _ _, ?_⟩
      intro a ha b hb
      rw [List.mem_singleton] at hb
      subst hb
      have := hend a ha
      simp only
      linarith
    · intro b hb
      rcases List.mem_append.mp hb with h1 | h1
      · exact hwid b h1
      · rw [List.mem_singleton] at h1
        subst h1
        exact hwd
    · intro b hb
      rcases List.mem_append.mp hb with h1 | h1
      · exact hroof b h1
      · rw [List.mem_singleton] at h1
        subst h1
        exact hy
  · intro b hb
    rcases List.mem_append.mp hb with h1 | h1
    · have := hend b h1
      linarith
    · rw [List.mem_singleton] at h1
      subst h1
      simp only
      linarith

lemma genLoopUpdate_inv {c : ℚ} (hc0 : 0 ≤ c) :
    ∀ (fuel : ℕ) (w : WorldState) (σ : DrawStream) (i : ℕ),
      ValidDraws σ → c + 33 ≤ 80 * min w.difficulty 2 → 1 ≤ w.difficulty →
      BuildingsOK w.buildings →
      (∀ b ∈ w.buildings, b.x + b.width ≤ w.lastBuildingEnd + c) →
      BuildingsOK (genLoopUpdate fuel w σ i).buildings ∧
      ∀ b ∈ (genLoopUpdate fuel w σ i).buildings,
        b.x + b.width ≤ (genLoopUpdate fuel w σ i).lastBuildingEnd + c := by
  intro fuel
  induction fuel with
  | zero =>
    intro w σ i _ _ _ hOK hend
    exact ⟨hOK, hend⟩
  | succ f ih =>
    intro w σ i hσ hcgap hd hOK hend
    simp only [genLoopUpdate]
    split
    · have hg := generateNextBuilding_inv c (σ i) (σ (i+1)) (σ (i+2)) (σ (i+3))
        hc0 hcgap hd (hσ i).1 (le_of_lt (hσ i).2) (hσ (i+1)).1
        (le_of_lt (hσ (i+1)).2) hOK hend
      have hsc := generateNextBuilding_scalars w (σ i) (σ (i+1)) (σ (i+2)) (σ (i+3))
      exact ih _ σ (i + 4) hσ (by rw [hsc.2.2.2]; exact hcgap)
        (by rw [hsc.2.2.2]; exact hd) hg.1 hg.2
    · exact ⟨hOK, hend⟩

lemma genLoopInit_inv {c : ℚ} (hc0 : 0 ≤ c) :
    ∀ (fuel : ℕ) (w : WorldState) (σ : DrawStream) (i : ℕ),
      ValidDraws σ → c + 33 ≤ 80 * min w.difficulty 2 → 1 ≤ w.difficulty →
      BuildingsOK w.buildings →
      (∀ b ∈ w.buildings, b.x + b.width ≤ w.lastBuildingEnd + c) →
      BuildingsOK (genLoopInit fuel w σ i).buildings ∧
      ∀ b ∈ (genLoopInit fuel w σ i).buildings,
        b.x + b.width ≤ (genLoopInit fuel w σ i).lastBuildingEnd + c := by
  intro fuel
  induction fuel with
  | zero =>
    intro w σ i _ _ _ hOK hend
    exact ⟨hOK, hend⟩
  | succ f ih =>
    intro w σ i hσ hcgap hd hOK hend
    simp only [genLoopInit]
    split
    · have hg := generateNextBuilding_inv c (σ i) (σ (i+1)) (σ (i+2)) (σ (i+3))
        hc0 hcgap hd (hσ i).1 (le_of_lt (hσ i).2) (hσ (i+1)).1
        (le_of_lt (hσ (i+1)).2) hOK hend
      have hsc := generateNextBuilding_scalars w (σ i) (σ (i+1)) (σ (i+2)) (σ (i+3))
      exact ih _ σ (i + 4) hσ (by rw [hsc.2.2.2]; exact hcgap)
        (by rw [hsc.2.2.2]; exact hd) hg.1 hg.2
    · exact ⟨hOK, hend⟩

lemma removeOffscreen_sublist :
    ∀ l : List Building, List.Sublist (removeOffscreen l) l := by
  intro l
  induction l with
  | nil => simp [removeOffscreen]
  | cons b rest ih =>
    simp only [removeOffscreen]
    split
    · exact ih.cons b
    · exact ih.cons₂ b

end World

namespace World

lemma update_WInv {w : WorldState} {dt : ℚ} {σ : DrawStream} (fuel : ℕ)
    (hw : WInv w) (hdt0 : 0 ≤ dt) (hdt1 : dt ≤ 100) (hσ : ValidDraws σ) :
    WInv (update w dt σ fuel) := by
  obtain ⟨hd0, hsp, hdf, hOK, hend⟩ := hw
  have hsp6 : 6 ≤ w.scrollSpeed := WInv_speed_lb ⟨hd0, hsp, hdf, hOK, hend⟩
  have hd1 : 1 ≤ w.difficulty := WInv_difficulty ⟨hd0, hsp, hdf, hOK, hend⟩
  set s := w.scrollSpeed * (dt / frameRef) with hs
  have hs0 : 0 ≤ s := by
    apply mul_nonneg (by linarith)
    apply div_nonneg hdt0
    norm_num [frameRef]
  have hdtFR : dt / frameRef ≤ 10000 / 1667 := by
    rw [frameRef, div_le_iff₀ (by norm_num)]
    linarith
  have hsB : s ≤ (10000 / 1667) * w.scrollSpeed := by
    have h := mul_le_mul_of_nonneg_left hdtFR (by linarith : (0:ℚ) ≤ w.scrollSpeed)
    rw [hs]
    linarith
  set d2 := w.distanceTraveled + s with hd2
  have hd20 : 0 ≤ d2 := by rw [hd2]; linarith
  set w1 : WorldState :=
    { buildings := removeOffscreen (w.buildings.map fun b => { b with x := b.x - s }),
      scrollSpeed := min maxSpeed (baseSpeed + d2 * speedIncreaseRate),
      distanceTraveled := d2,
      worldOffset := w.worldOffset + s,
      lastBuildingEnd := w.lastBuildingEnd,
      difficulty := 1 + d2 / 3000 } with hw1
  have hupd : update w dt σ fuel =
      { genLoopUpdate fuel w1 σ 0 with
        lastBuildingEnd := (genLoopUpdate fuel w1 σ 0).lastBuildingEnd - s } := rfl
  have hspmono : w.scrollSpeed ≤ w1.scrollSpeed := by
    rw [hsp, hw1]
    apply min_le_min (le_refl _)
    apply add_le_add_left
    apply mul_le_mul_of_nonneg_right _ (by norm_num [speedIncreaseRate])
    linarith
  have hmem1 : ∀ b ∈ w1.buildings, ∃ a ∈ w.buildings,
      b = { a with x := a.x - s } := by
    intro b hb
    have hb2 : b ∈ w.buildings.map fun a => { a with x := a.x - s } :=
      (removeOffscreen_sublist _).subset hb
    obtain ⟨a, ha, hab⟩ := List.mem_map.mp hb2
    exact ⟨a, ha, hab.symm⟩
  have hOK1 : BuildingsOK w1.buildings := by
    obtain ⟨hpw, hwid, hroof⟩ := hOK
    refine ⟨?_, ?_, ?_⟩
    · apply List.Pairwise.sublist (removeOffscreen_sublist _)
      rw [List.pairwise_map]
      apply hpw.imp
      intro a b hab
      simp only
      linarith
    · intro b hb
      obtain ⟨a, ha, rfl⟩ := hmem1 b hb
      exact hwid a ha
    · intro b hb
      obtain ⟨a, ha, rfl⟩ := hmem1 b hb
      exact hroof a ha
  set c := (10000 / 1667) * w.scrollSpeed - s with hc
  have hc0 : 0 ≤ c := by rw [hc]; linarith
  have hend1 : ∀ b ∈ w1.buildings, b.x + b.width ≤ w1.lastBuildingEnd + c := by
    intro b hb
    obtain ⟨a, ha, rfl⟩ := hmem1 b hb
    have := hend a ha
    show a.x - s + a.width ≤ w.lastBuildingEnd + c
    rw [hc]
    linarith
  have hdiff1 : w1.difficulty = 1 + d2 / 3000 := rfl
  have hd11 : 1 ≤ w1.difficulty := by rw [hdiff1]; linarith
  have hcgap1 : c + 33 ≤ 80 * min w1.difficulty 2 := by
    have hkey := key_gap d2 hd20
    have hspB2 : (10000 / 1667 : ℚ) * w.scrollSpeed ≤
        (10000 / 1667) * w1.scrollSpeed :=
      mul_le_mul_of_nonneg_left hspmono (by norm_num)
    have hw1sp : w1.scrollSpeed = min 14 (6 + d2 * (3 / 10000)) := by
      rw [hw1]
      norm_num [maxSpeed, baseSpeed, speedIncreaseRate]
    rw [hdiff1]
    rw [hw1sp] at hspB2
    rw [hc]
    linarith
  have hloop := genLoopUpdate_inv hc0 fuel w1 σ 0 hσ hcgap1 hd11 hOK1 hend1
  have hsc := genLoopUpdate_scalars fuel w1 σ 0
  rw [hupd]
  refine ⟨?_, ?_, ?_, ?_, ?_⟩
  · show 0 ≤ (genLoopUpdate fuel w1 σ 0).distanceTraveled
    rw [hsc.2.1]
    exact hd20
  · show (genLoopUpdate fuel w1 σ 0).scrollSpeed = min maxSpeed
      (baseSpeed + (genLoopUpdate fuel w1 σ 0).distanceTraveled * speedIncreaseRate)
    rw [hsc.1, hsc.2.1]
  · show (genLoopUpdate fuel w1 σ 0).difficulty =
      1 + (genLoopUpdate fuel w1 σ 0).distanceTraveled / 3000
    rw [hsc.2.2.2, hsc.2.1]
  · exact hloop.1
  · intro b hb
    have h1 := hloop.2 b hb
    have h2 : (genLoopUpdate fuel w1 σ 0).scrollSpeed = w1.scrollSpeed := hsc.1
    have h3 : (10000 / 1667 : ℚ) * w.scrollSpeed ≤
        (10000 / 1667) * w1.scrollSpeed :=
      mul_le_mul_of_nonneg_left hspmono (by norm_num)
    simp only
    rw [h2, hc] at *
    linarith

lemma initWorld_WInv (σ : DrawStream) (fuel : ℕ) (hσ : ValidDraws σ) :
    WInv (initWorld σ fuel) := by
  set w1 : WorldState :=
    { buildings := [⟨0, groundY, 400, canvasHeight - groundY + 200, true,
        randIntQ 0 2 (σ 0)⟩],
      scrollSpeed := baseSpeed, distanceTraveled := 0, worldOffset := 0,
      lastBuildingEnd := 400, difficulty := 1 } with hw1
  have hini : initWorld σ fuel = genLoopInit fuel w1 σ 1 := rfl
  have hOK1 : BuildingsOK w1.buildings := by
    refine ⟨List.pairwise_singleton _ _, ?_, ?_⟩ <;>
      · intro b hb
        rw [List.mem_singleton] at hb
        subst hb
        norm_num [groundY, canvasHeight]
  have hend1 : ∀ b ∈ w1.buildings, b.x + b.width ≤ w1.lastBuildingEnd + 0 := by
    intro b hb
    rw [List.mem_singleton] at hb
    subst hb
    norm_num
  have hcgap1 : (0 : ℚ) + 33 ≤ 80 * min w1.difficulty 2 := by
    have : min (1 : ℚ) 2 = 1 := by norm_num
    show (0 : ℚ) + 33 ≤ 80 * min 1 2
    rw [this]
    norm_num
  have hloop := genLoopInit_inv (le_refl 0) fuel w1 σ 1 hσ hcgap1 (by norm_num) hOK1 hend1
  have hsc := genLoopInit_scalars fuel w1 σ 1
  rw [hini]
  refine ⟨?_, ?_, ?_, hloop.1, ?_⟩
  · rw [hsc.2.1]
  · rw [hsc.1, hsc.2.1]
    norm_num [maxSpeed, baseSpeed, speedIncreaseRate]
  · rw [hsc.2.2.2, hsc.2.1]
    norm_num
  · intro b hb
    have h1 := hloop.2 b hb
    have h2 := hsc.1
    rw [h2]
    have : (0:ℚ) ≤ (10000 / 1667) * w1.scrollSpeed := by
      apply mul_nonneg (by norm_num)
      norm_num [hw1, baseSpeed]
    linarith

end World

/-- The worlds reachable through the real game loop: an initial or
reset world followed by any number of `World.update` ticks whose delta
time is non-negative and at most the 100 ms cap enforced by
`Game.gameLoop`, with all `Math.random()` draws in `[0, 1)`. -/
inductive ReachableC : WorldState → Prop where
  | init : ∀ (σ : DrawStream) (fuel : ℕ), ValidDraws σ →
      ReachableC (World.initWorld σ fuel)
  | reset : ∀ (w : WorldState) (σ : DrawStream) (fuel : ℕ), ValidDraws σ →
      ReachableC (World.reset w σ fuel)
  | step : ∀ (w : WorldState) (dt : ℚ) (σ : DrawStream) (fuel : ℕ),
      ReachableC w → 0 ≤ dt → dt ≤ 100 → ValidDraws σ →
      ReachableC (World.update w dt σ fuel)

/-- Worlds reachable with arbitrarily large (but non-negative) delta
times, and arbitrary draw streams: the literal quantification of the
claim, with no delta-time cap. -/
inductive ReachableA : WorldState → Prop where
  | init : ∀ (σ : DrawStream) (fuel : ℕ), ReachableA (World.initWorld σ fuel)
  | reset : ∀ (w : WorldState) (σ : DrawStream) (fuel : ℕ),
      ReachableA (World.reset w σ fuel)
  | step : ∀ (w : WorldState) (dt : ℚ) (σ : DrawStream) (fuel : ℕ),
      ReachableA w → 0 ≤ dt → ReachableA (World.update w dt σ fuel)

lemma reachableC_WInv {w : WorldState} (h : ReachableC w) : WInv w := by
  induction h with
  | init σ fuel hσ => exact World.initWorld_WInv σ fuel hσ
  | reset w σ fuel hσ =>
    rw [World.reset_eq_initWorld]
    exact World.initWorld_WInv σ fuel hσ
  | step w dt σ fuel _ hdt0 hdt1 hσ ih => exact World.update_WInv fuel ih hdt0 hdt1 hσ

/-- C1 (amended: per-tick delta time is capped at 100 ms, as
`Game.gameLoop` guarantees by replacing any larger frame gap with
16.67 ms — with unbounded delta time the invariant fails, see the
counterexample): in every reachable world, for any two active buildings
with A generated before B (list order is generation order),
`A.x + A.width ≤ B.x`; platform x-spans never overlap and the ordering
is preserved by every update step and by reset. -/
theorem building_spans_never_overlap {w : WorldState} (h : ReachableC w) :
    w.buildings.Pairwise (fun A B => A.x + A.width ≤ B.x) := by
  have hOK := (reachableC_WInv h).2.2.2.1
  apply hOK.1.imp
  intro A B hab
  linarith

/-- C1 witness: the initial world is reachable and its spans are
pairwise non-overlapping. -/
theorem building_spans_never_overlap_witness :
    ReachableC (World.initWorld zeroDraws 0) ∧
    (World.initWorld zeroDraws 0).buildings.Pairwise
      (fun A B => A.x + A.width ≤ B.x) := by
  have hr : ReachableC (World.initWorld zeroDraws 0) :=
    ReachableC.init zeroDraws 0 (fun i => by norm_num [zeroDraws])
  exact ⟨hr, building_spans_never_overlap hr⟩

/-! ### Speed monotonicity (C4) -/

namespace World

lemma update_scalars (w : WorldState) (dt : ℚ) (σ : DrawStream) (fuel : ℕ) :
    (update w dt σ fuel).distanceTraveled
      = w.distanceTraveled + w.scrollSpeed * (dt / frameRef) ∧
    (update w dt σ fuel).scrollSpeed
      = min maxSpeed (baseSpeed +
          (update w dt σ fuel).distanceTraveled * speedIncreaseRate) ∧
    (update w dt σ fuel).difficulty
      = 1 + (update w dt σ fuel).distanceTraveled / 3000 := by
  set s := w.scrollSpeed * (dt / frameRef) with hs
  set d2 := w.distanceTraveled + s with hd2
  set w1 : WorldState :=
    { buildings := removeOffscreen (w.buildings.map fun b => { b with x := b.x - s }),
      scrollSpeed := min maxSpeed (baseSpeed + d2 * speedIncreaseRate),
      distanceTraveled := d2,
      worldOffset := w.worldOffset + s,
      lastBuildingEnd := w.lastBuildingEnd,
      difficulty := 1 + d2 / 3000 } with hw1
  have hupd : update w dt σ fuel =
      { genLoopUpdate fuel w1 σ 0 with
        lastBuildingEnd := (genLoopUpdate fuel w1 σ 0).lastBuildingEnd - s } := rfl
  have hsc := genLoopUpdate_scalars fuel w1 σ 0
  rw [hupd]
  refine ⟨?_, ?_, ?_⟩
  · show (genLoopUpdate fuel w1 σ 0).distanceTraveled = d2
    rw [hsc.2.1]
  · show (genLoopUpdate fuel w1 σ 0).scrollSpeed = min maxSpeed
      (baseSpeed + (genLoopUpdate fuel w1 σ 0).distanceTraveled * speedIncreaseRate)
    rw [hsc.1, hsc.2.1]
  · show (genLoopUpdate fuel w1 σ 0).difficulty =
      1 + (genLoopUpdate fuel w1 σ 0).distanceTraveled / 3000
    rw [hsc.2.2.2, hsc.2.1]

end World

/-- The speed/distance fragment of the world invariant, provable with
no assumption on delta-time size or draw validity. -/
def SpeedInv (w : WorldState) : Prop :=
  0 ≤ w.distanceTraveled ∧
  w.scrollSpeed = min World.maxSpeed
    (World.baseSpeed + w.distanceTraveled * World.speedIncreaseRate)

lemma speedInv_speed_lb {w : WorldState} (h : SpeedInv w) : 6 ≤ w.scrollSpeed := by
  obtain ⟨hd0, hsp⟩ := h
  rw [hsp]
  apply le_min
  · norm_num [World.maxSpeed]
  · unfold World.baseSpeed World.speedIncreaseRate
    nlinarith

lemma reachableA_SpeedInv {w : WorldState} (h : ReachableA w) : SpeedInv w := by
  induction h with
  | init σ fuel =>
    have hsc := World.generateInitialBuildings_scalars
      { buildings := [], scrollSpeed := World.baseSpeed, distanceTraveled := 0,
        worldOffset := 0, lastBuildingEnd := 0, difficulty := 1 } σ fuel
    constructor
    · show 0 ≤ (World.initWorld σ fuel).distanceTraveled
      rw [show (World.initWorld σ fuel).distanceTraveled = 0 from hsc.2.1]
    · show (World.initWorld σ fuel).scrollSpeed = _
      rw [show (World.initWorld σ fuel).scrollSpeed = World.baseSpeed from hsc.1,
        show (World.initWorld σ fuel).distanceTraveled = 0 from hsc.2.1]
      norm_num [World.maxSpeed, World.baseSpeed, World.speedIncreaseRate]
  | reset w σ fuel =>
    rw [World.reset_eq_initWorld]
    have hsc := World.generateInitialBuildings_scalars
      { buildings := [], scrollSpeed := World.baseSpeed, distanceTraveled := 0,
        worldOffset := 0, lastBuildingEnd := 0, difficulty := 1 } σ fuel
    constructor
    · show 0 ≤ (World.initWorld σ fuel).distanceTraveled
      rw [show (World.initWorld σ fuel).distanceTraveled = 0 from hsc.2.1]
    · show (World.initWorld σ fuel).scrollSpeed = _
      rw [show (World.initWorld σ fuel).scrollSpeed = World.baseSpeed from hsc.1,
        show (World.initWorld σ fuel).distanceTraveled = 0 from hsc.2.1]
      norm_num [World.maxSpeed, World.baseSpeed, World.speedIncreaseRate]
  | step w dt σ fuel _ hdt0 ih =>
    obtain ⟨hd0, hsp⟩ := ih
    have h6 : 6 ≤ w.scrollSpeed := speedInv_speed_lb ⟨hd0, hsp⟩
    have hsc := World.update_scalars w dt σ fuel
    have hs0 : 0 ≤ w.scrollSpeed * (dt / World.frameRef) := by
      apply mul_nonneg (by linarith)
      apply div_nonneg hdt0
      norm_num [World.frameRef]
    constructor
    · rw [hsc.1]
      linarith
    · exact hsc.2.1

/-- C4: over any run (init or reset followed by arbitrary updates with
non-negative delta time, no cap needed), `scrollSpeed` never decreases
across an update, never exceeds `maxSpeed = 14`, `distanceTraveled`
is a monotone accumulator, and after every update
`scrollSpeed = min(maxSpeed, baseSpeed + distanceTraveled * speedIncreaseRate)`. -/
theorem scroll_speed_monotone_capped (w : WorldState) (dt : ℚ) (σ : DrawStream)
    (fuel : ℕ) (hr : ReachableA w) (hdt : 0 ≤ dt) :
    w.scrollSpeed ≤ (World.update w dt σ fuel).scrollSpeed ∧
    (World.update w dt σ fuel).scrollSpeed ≤ World.maxSpeed ∧
    w.distanceTraveled ≤ (World.update w dt σ fuel).distanceTraveled ∧
    (World.update w dt σ fuel).scrollSpeed = min World.maxSpeed
      (World.baseSpeed +
        (World.update w dt σ fuel).distanceTraveled * World.speedIncreaseRate) ∧
    World.maxSpeed = 14 := by
  obtain ⟨hd0, hsp⟩ := reachableA_SpeedInv hr
  have h6 : 6 ≤ w.scrollSpeed := speedInv_speed_lb ⟨hd0, hsp⟩
  have hsc := World.update_scalars w dt σ fuel
  have hs0 : 0 ≤ w.scrollSpeed * (dt / World.frameRef) := by
    apply mul_nonneg (by linarith)
    apply div_nonneg hdt
    norm_num [World.frameRef]
  have hdmono : w.distanceTraveled ≤ (World.update w dt σ fuel).distanceTraveled := by
    rw [hsc.1]
    linarith
  refine ⟨?_, ?_, hdmono, hsc.2.1, rfl⟩
  · rw [hsc.2.1, hsp]
    apply min_le_min (le_refl _)
    apply add_le_add_left
    apply mul_le_mul_of_nonneg_right hdmono
    norm_num [World.speedIncreaseRate]
  · rw [hsc.2.1]
    exact min_le_left _ _

/-- C4 witness: one zero-delta update of the initial world keeps the
speed at its base value, inside all the claimed bounds. -/
theorem scroll_speed_monotone_capped_witness :
    (World.initWorld zeroDraws 0).scrollSpeed ≤
      (World.update (World.initWorld zeroDraws 0) 0 zeroDraws 0).scrollSpeed ∧
    (World.update (World.initWorld zeroDraws 0) 0 zeroDraws 0).scrollSpeed ≤
      World.maxSpeed := by
  have h := scroll_speed_monotone_capped (World.initWorld zeroDraws 0) 0 zeroDraws 0
    (ReachableA.init zeroDraws 0) (le_refl 0)
  exact ⟨h.1, h.2.1⟩

/-! ### C1 as literally stated fails for unbounded delta time:
a concrete two-tick run (one 10002 ms tick, then one 0 ms tick, all
draws 0) produces overlapping active buildings. The step lemmas below
evaluate the run one generation at a time. -/

lemma rintq0 : randIntQ 0 2 0 = 0 := by
  norm_num [randIntQ, Rat.floor]

lemma cxInit1 :
    World.generateNextBuilding
    ⟨[⟨0,500,400,300,true,0⟩],
    6, 0, 0, 400, 1⟩ 0 0 0 0 =
    ⟨[⟨0,500,400,300,true,0⟩, ⟨480,420,180,380,true,0⟩],
    6, 0, 0, 660, 1⟩ := by
  norm_num [World.generateNextBuilding, World.addBuilding, World.gapDraw,
    World.widthDraw, World.newYDraw, World.baseYOf, clampQ, randQ, rintq0,
    World.minGap, World.maxGap, World.minBuildingWidth, World.maxBuildingWidth,
    World.heightVariation, World.groundY, World.canvasWidth, World.canvasHeight]

lemma cxInit2 :
    World.generateNextBuilding
    ⟨[⟨0,500,400,300,true,0⟩, ⟨480,420,180,380,true,0⟩],
    6, 0, 0, 660, 1⟩ 0 0 0 0 =
    ⟨[⟨0,500,400,300,true,0⟩, ⟨480,420,180,380,true,0⟩, ⟨740,400,180,400,true,0⟩],
    6, 0, 0, 920, 1⟩ := by
  norm_num [World.generateNextBuilding, World.addBuilding, World.gapDraw,
    World.widthDraw, World.newYDraw, World.baseYOf, clampQ, randQ, rintq0,
    World.minGap, World.maxGap, World.minBuildingWidth, World.maxBuildingWidth,
    World.heightVariation, World.groundY, World.canvasWidth, World.canvasHeight]

lemma cxInit3 :
    World.generateNextBuilding
    ⟨[⟨0,500,400,300,true,0⟩, ⟨480,420,180,380,true,0⟩, ⟨740,400,180,400,true,0⟩],
    6, 0, 0, 920, 1⟩ 0 0 0 0 =
    ⟨[⟨0,500,400,300,true,0⟩, ⟨480,420,180,380,true,0⟩, ⟨740,400,180,400,true,0⟩, ⟨1000,400,180,400,true,0⟩],
    6, 0, 0, 1180, 1⟩ := by
  norm_num [World.generateNextBuilding, World.addBuilding, World.gapDraw,
    World.widthDraw, World.newYDraw, World.baseYOf, clampQ, randQ, rintq0,
    World.minGap, World.maxGap, World.minBuildingWidth, World.maxBuildingWidth,
    World.heightVariation, World.groundY, World.canvasWidth, World.canvasHeight]

lemma cxInit4 :
    World.generateNextBuilding
    ⟨[⟨0,500,400,300,true,0⟩, ⟨480,420,180,380,true,0⟩, ⟨740,400,180,400,true,0⟩, ⟨1000,400,180,400,true,0⟩],
    6, 0, 0, 1180, 1⟩ 0 0 0 0 =
    ⟨[⟨0,500,400,300,true,0⟩, ⟨480,420,180,380,true,0⟩, ⟨740,400,180,400,true,0⟩, ⟨1000,400,180,400,true,0⟩, ⟨1260,400,180,400,true,0⟩],
    6, 0, 0, 1440, 1⟩ := by
  norm_num [World.generateNextBuilding, World.addBuilding, World.gapDraw,
    World.widthDraw, World.newYDraw, World.baseYOf, clampQ, randQ, rintq0,
    World.minGap, World.maxGap, World.minBuildingWidth, World.maxBuildingWidth,
    World.heightVariation, World.groundY, World.canvasWidth, World.canvasHeight]

lemma cxInit5 :
    World.generateNextBuilding
    ⟨[⟨0,500,400,300,true,0⟩, ⟨480,420,180,380,true,0⟩, ⟨740,400,180,400,true,0⟩, ⟨1000,400,180,400,true,0⟩, ⟨1260,400,180,400,true,0⟩],
    6, 0, 0, 1440, 1⟩ 0 0 0 0 =
    ⟨[⟨0,500,400,300,true,0⟩, ⟨480,420,180,380,true,0⟩, ⟨740,400,180,400,true,0⟩, ⟨1000,400,180,400,true,0⟩, ⟨1260,400,180,400,true,0⟩, ⟨1520,400,180,400,true,0⟩],
    6, 0, 0, 1700, 1⟩ := by
  norm_num [World.generateNextBuilding, World.addBuilding, World.gapDraw,
    World.widthDraw, World.newYDraw, World.baseYOf, clampQ, randQ, rintq0,
    World.minGap, World.maxGap, World.minBuildingWidth, World.maxBuildingWidth,
    World.heightVariation, World.groundY, World.canvasWidth, World.canvasHeight]

lemma cxTickA1 :
    World.generateNextBuilding
    ⟨[],
    (177/25 : ℚ), 3600, 3600, 1700, (11/5 : ℚ)⟩ 0 0 0 0 =
    ⟨[⟨1860,420,156,380,true,0⟩],
    (177/25 : ℚ), 3600, 3600, 2016, (11/5 : ℚ)⟩ := by
  norm_num [World.generateNextBuilding, World.addBuilding, World.gapDraw,
    World.widthDraw, World.newYDraw, World.baseYOf, clampQ, randQ, rintq0,
    World.minGap, World.maxGap, World.minBuildingWidth, World.maxBuildingWidth,
    World.heightVariation, World.groundY, World.canvasWidth, World.canvasHeight]

lemma cxTickA2 :
    World.generateNextBuilding
    ⟨[⟨1860,420,156,380,true,0⟩],
    (177/25 : ℚ), 3600, 3600, 2016, (11/5 : ℚ)⟩ 0 0 0 0 =
    ⟨[⟨1860,420,156,380,true,0⟩, ⟨2176,400,156,400,true,0⟩],
    (177/25 : ℚ), 3600, 3600, 2332, (11/5 : ℚ)⟩ := by
  norm_num [World.generateNextBuilding, World.addBuilding, World.gapDraw,
    World.widthDraw, World.newYDraw, World.baseYOf, clampQ, randQ, rintq0,
    World.minGap, World.maxGap, World.minBuildingWidth, World.maxBuildingWidth,
    World.heightVariation, World.groundY, World.canvasWidth, World.canvasHeight]

lemma cxTickA3 :
    World.generateNextBuilding
    ⟨[⟨1860,420,156,380,true,0⟩, ⟨2176,400,156,400,true,0⟩],
    (177/25 : ℚ), 3600, 3600, 2332, (11/5 : ℚ)⟩ 0 0 0 0 =
    ⟨[⟨1860,420,156,380,true,0⟩, ⟨2176,400,156,400,true,0⟩, ⟨2492,400,156,400,true,0⟩],
    (177/25 : ℚ), 3600, 3600, 2648, (11/5 : ℚ)⟩ := by
  norm_num [World.generateNextBuilding, World.addBuilding, World.gapDraw,
    World.widthDraw, World.newYDraw, World.baseYOf, clampQ, randQ, rintq0,
    World.minGap, World.maxGap, World.minBuildingWidth, World.maxBuildingWidth,
    World.heightVariation, World.groundY, World.canvasWidth, World.canvasHeight]

lemma cxTickA4 :
    World.generateNextBuilding
    ⟨[⟨1860,420,156,380,true,0⟩, ⟨2176,400,156,400,true,0⟩, ⟨2492,400,156,400,true,0⟩],
    (177/25 : ℚ), 3600, 3600, 2648, (11/5 : ℚ)⟩ 0 0 0 0 =
    ⟨[⟨1860,420,156,380,true,0⟩, ⟨2176,400,156,400,true,0⟩, ⟨2492,400,156,400,true,0⟩, ⟨2808,400,156,400,true,0⟩],
    (177/25 : ℚ), 3600, 3600, 2964, (11/5 : ℚ)⟩ := by
  norm_num [World.generateNextBuilding, World.addBuilding, World.gapDraw,
    World.widthDraw, World.newYDraw, World.baseYOf, clampQ, randQ, rintq0,
    World.minGap, World.maxGap, World.minBuildingWidth, World.maxBuildingWidth,
    World.heightVariation, World.groundY, World.canvasWidth, World.canvasHeight]

lemma cxTickA5 :
    World.generateNextBuilding
    ⟨[⟨1860,420,156,380,true,0⟩, ⟨2176,400,156,400,true,0⟩, ⟨2492,400,156,400,true,0⟩, ⟨2808,400,156,400,true,0⟩],
    (177/25 : ℚ), 3600, 3600, 2964, (11/5 : ℚ)⟩ 0 0 0 0 =
    ⟨[⟨1860,420,156,380,true,0⟩, ⟨2176,400,156,400,true,0⟩, ⟨2492,400,156,400,true,0⟩, ⟨2808,400,156,400,true,0⟩, ⟨3124,400,156,400,true,0⟩],
    (177/25 : ℚ), 3600, 3600, 3280, (11/5 : ℚ)⟩ := by
  norm_num [World.generateNextBuilding, World.addBuilding, World.gapDraw,
    World.widthDraw, World.newYDraw, World.baseYOf, clampQ, randQ, rintq0,
    World.minGap, World.maxGap, World.minBuildingWidth, World.maxBuildingWidth,
    World.heightVariation, World.groundY, World.canvasWidth, World.canvasHeight]

lemma cxTickA6 :
    World.generateNextBuilding
    ⟨[⟨1860,420,156,380,true,0⟩, ⟨2176,400,156,400,true,0⟩, ⟨2492,400,156,400,true,0⟩, ⟨2808,400,156,400,true,0⟩, ⟨3124,400,156,400,true,0⟩],
    (177/25 : ℚ), 3600, 3600, 3280, (11/5 : ℚ)⟩ 0 0 0 0 =
    ⟨[⟨1860,420,156,380,true,0⟩, ⟨2176,400,156,400,true,0⟩, ⟨2492,400,156,400,true,0⟩, ⟨2808,400,156,400,true,0⟩, ⟨3124,400,156,400,true,0⟩, ⟨3440,400,156,400,true,0⟩],
    (177/25 : ℚ), 3600, 3600, 3596, (11/5 : ℚ)⟩ := by
  norm_num [World.generateNextBuilding, World.addBuilding, World.gapDraw,
    World.widthDraw, World.newYDraw, World.baseYOf, clampQ, randQ, rintq0,
    World.minGap, World.maxGap, World.minBuildingWidth, World.maxBuildingWidth,
    World.heightVariation, World.groundY, World.canvasWidth, World.canvasHeight]

lemma cxTickA7 :
    World.generateNextBuilding
    ⟨[⟨1860,420,156,380,true,0⟩, ⟨2176,400,156,400,true,0⟩, ⟨2492,400,156,400,true,0⟩, ⟨2808,400,156,400,true,0⟩, ⟨3124,400,156,400,true,0⟩, ⟨3440,400,156,400,true,0⟩],
    (177/25 : ℚ), 3600, 3600, 3596, (11/5 : ℚ)⟩ 0 0 0 0 =
    ⟨[⟨1860,420,156,380,true,0⟩, ⟨2176,400,156,400,true,0⟩, ⟨2492,400,156,400,true,0⟩, ⟨2808,400,156,400,true,0⟩, ⟨3124,400,156,400,true,0⟩, ⟨3440,400,156,400,true,0⟩, ⟨3756,400,156,400,true,0⟩],
    (177/25 : ℚ), 3600, 3600, 3912, (11/5 : ℚ)⟩ := by
  norm_num [World.generateNextBuilding, World.addBuilding, World.gapDraw,
    World.widthDraw, World.newYDraw, World.baseYOf, clampQ, randQ, rintq0,
    World.minGap, World.maxGap, World.minBuildingWidth, World.maxBuildingWidth,
    World.heightVariation, World.groundY, World.canvasWidth, World.canvasHeight]

lemma cxTickA8 :
    World.generateNextBuilding
    ⟨[⟨1860,420,156,380,true,0⟩, ⟨2176,400,156,400,true,0⟩, ⟨2492,400,156,400,true,0⟩, ⟨2808,400,156,400,true,0⟩, ⟨3124,400,156,400,true,0⟩, ⟨3440,400,156,400,true,0⟩, ⟨3756,400,156,400,true,0⟩],
    (177/25 : ℚ), 3600, 3600, 3912, (11/5 : ℚ)⟩ 0 0 0 0 =
    ⟨[⟨1860,420,156,380,true,0⟩, ⟨2176,400,156,400,true,0⟩, ⟨2492,400,156,400,true,0⟩, ⟨2808,400,156,400,true,0⟩, ⟨3124,400,156,400,true,0⟩, ⟨3440,400,156,400,true,0⟩, ⟨3756,400,156,400,true,0⟩, ⟨4072,400,156,400,true,0⟩],
    (177/25 : ℚ), 3600, 3600, 4228, (11/5 : ℚ)⟩ := by
  norm_num [World.generateNextBuilding, World.addBuilding, World.gapDraw,
    World.widthDraw, World.newYDraw, World.baseYOf, clampQ, randQ, rintq0,
    World.minGap, World.maxGap, World.minBuildingWidth, World.maxBuildingWidth,
    World.heightVariation, World.groundY, World.canvasWidth, World.canvasHeight]

lemma cxTickA9 :
    World.generateNextBuilding
    ⟨[⟨1860,420,156,380,true,0⟩, ⟨2176,400,156,400,true,0⟩, ⟨2492,400,156,400,true,0⟩, ⟨2808,400,156,400,true,0⟩, ⟨3124,400,156,400,true,0⟩, ⟨3440,400,156,400,true,0⟩, ⟨3756,400,156,400,true,0⟩, ⟨4072,400,156,400,true,0⟩],
    (177/25 : ℚ), 3600, 3600, 4228, (11/5 : ℚ)⟩ 0 0 0 0 =
    ⟨[⟨1860,420,156,380,true,0⟩, ⟨2176,400,156,400,true,0⟩, ⟨2492,400,156,400,true,0⟩, ⟨2808,400,156,400,true,0⟩, ⟨3124,400,156,400,true,0⟩, ⟨3440,400,156,400,true,0⟩, ⟨3756,400,156,400,true,0⟩, ⟨4072,400,156,400,true,0⟩, ⟨4388,400,156,400,true,0⟩],
    (177/25 : ℚ), 3600, 3600, 4544, (11/5 : ℚ)⟩ := by
  norm_num [World.generateNextBuilding, World.addBuilding, World.gapDraw,
    World.widthDraw, World.newYDraw, World.baseYOf, clampQ, randQ, rintq0,
    World.minGap, World.maxGap, World.minBuildingWidth, World.maxBuildingWidth,
    World.heightVariation, World.groundY, World.canvasWidth, World.canvasHeight]

lemma cxTickA10 :
    World.generateNextBuilding
    ⟨[⟨1860,420,156,380,true,0⟩, ⟨2176,400,156,400,true,0⟩, ⟨2492,400,156,400,true,0⟩, ⟨2808,400,156,400,true,0⟩, ⟨3124,400,156,400,true,0⟩, ⟨3440,400,156,400,true,0⟩, ⟨3756,400,156,400,true,0⟩, ⟨4072,400,156,400,true,0⟩, ⟨4388,400,156,400,true,0⟩],
    (177/25 : ℚ), 3600, 3600, 4544, (11/5 : ℚ)⟩ 0 0 0 0 =
    ⟨[⟨1860,420,156,380,true,0⟩, ⟨2176,400,156,400,true,0⟩, ⟨2492,400,156,400,true,0⟩, ⟨2808,400,156,400,true,0⟩, ⟨3124,400,156,400,true,0⟩, ⟨3440,400,156,400,true,0⟩, ⟨3756,400,156,400,true,0⟩, ⟨4072,400,156,400,true,0⟩, ⟨4388,400,156,400,true,0⟩, ⟨4704,400,156,400,true,0⟩],
    (177/25 : ℚ), 3600, 3600, 4860, (11/5 : ℚ)⟩ := by
  norm_num [World.generateNextBuilding, World.addBuilding, World.gapDraw,
    World.widthDraw, World.newYDraw, World.baseYOf, clampQ, randQ, rintq0,
    World.minGap, World.maxGap, World.minBuildingWidth, World.maxBuildingWidth,
    World.heightVariation, World.groundY, World.canvasWidth, World.canvasHeight]

lemma cxTickA11 :
    World.generateNextBuilding
    ⟨[⟨1860,420,156,380,true,0⟩, ⟨2176,400,156,400,true,0⟩, ⟨2492,400,156,400,true,0⟩, ⟨2808,400,156,400,true,0⟩, ⟨3124,400,156,400,true,0⟩, ⟨3440,400,156,400,true,0⟩, ⟨3756,400,156,400,true,0⟩, ⟨4072,400,156,400,true,0⟩, ⟨4388,400,156,400,true,0⟩, ⟨4704,400,156,400,true,0⟩],
    (177/25 : ℚ), 3600, 3600, 4860, (11/5 : ℚ)⟩ 0 0 0 0 =
    ⟨[⟨1860,420,156,380,true,0⟩, ⟨2176,400,156,400,true,0⟩, ⟨2492,400,156,400,true,0⟩, ⟨2808,400,156,400,true,0⟩, ⟨3124,400,156,400,true,0⟩, ⟨3440,400,156,400,true,0⟩, ⟨3756,400,156,400,true,0⟩, ⟨4072,400,156,400,true,0⟩, ⟨4388,400,156,400,true,0⟩, ⟨4704,400,156,400,true,0⟩, ⟨5020,400,156,400,true,0⟩],
    (177/25 : ℚ), 3600, 3600, 5176, (11/5 : ℚ)⟩ := by
  norm_num [World.generateNextBuilding, World.addBuilding, World.gapDraw,
    World.widthDraw, World.newYDraw, World.baseYOf, clampQ, randQ, rintq0,
    World.minGap, World.maxGap, World.minBuildingWidth, World.maxBuildingWidth,
    World.heightVariation, World.groundY, World.canvasWidth, World.canvasHeight]

lemma cxTickB1 :
    World.generateNextBuilding
    ⟨[⟨1860,420,156,380,true,0⟩, ⟨2176,400,156,400,true,0⟩, ⟨2492,400,156,400,true,0⟩, ⟨2808,400,156,400,true,0⟩, ⟨3124,400,156,400,true,0⟩, ⟨3440,400,156,400,true,0⟩, ⟨3756,400,156,400,true,0⟩, ⟨4072,400,156,400,true,0⟩, ⟨4388,400,156,400,true,0⟩, ⟨4704,400,156,400,true,0⟩, ⟨5020,400,156,400,true,0⟩],
    (177/25 : ℚ), 3600, 3600, 1576, (11/5 : ℚ)⟩ 0 0 0 0 =
    ⟨[⟨1860,420,156,380,true,0⟩, ⟨2176,400,156,400,true,0⟩, ⟨2492,400,156,400,true,0⟩, ⟨2808,400,156,400,true,0⟩, ⟨3124,400,156,400,true,0⟩, ⟨3440,400,156,400,true,0⟩, ⟨3756,400,156,400,true,0⟩, ⟨4072,400,156,400,true,0⟩, ⟨4388,400,156,400,true,0⟩, ⟨4704,400,156,400,true,0⟩, ⟨5020,400,156,400,true,0⟩, ⟨1736,400,156,400,true,0⟩],
    (177/25 : ℚ), 3600, 3600, 1892, (11/5 : ℚ)⟩ := by
  norm_num [World.generateNextBuilding, World.addBuilding, World.gapDraw,
    World.widthDraw, World.newYDraw, World.baseYOf, clampQ, randQ, rintq0,
    World.minGap, World.maxGap, World.minBuildingWidth, World.maxBuildingWidth,
    World.heightVariation, World.groundY, World.canvasWidth, World.canvasHeight]

lemma cxTickB2 :
    World.generateNextBuilding
    ⟨[⟨1860,420,156,380,true,0⟩, ⟨2176,400,156,400,true,0⟩, ⟨2492,400,156,400,true,0⟩, ⟨2808,400,156,400,true,0⟩, ⟨3124,400,156,400,true,0⟩, ⟨3440,400,156,400,true,0⟩, ⟨3756,400,156,400,true,0⟩, ⟨4072,400,156,400,true,0⟩, ⟨4388,400,156,400,true,0⟩, ⟨4704,400,156,400,true,0⟩, ⟨5020,400,156,400,true,0⟩, ⟨1736,400,156,400,true,0⟩],
    (177/25 : ℚ), 3600, 3600, 1892, (11/5 : ℚ)⟩ 0 0 0 0 =
    ⟨[⟨1860,420,156,380,true,0⟩, ⟨2176,400,156,400,true,0⟩, ⟨2492,400,156,400,true,0⟩, ⟨2808,400,156,400,true,0⟩, ⟨3124,400,156,400,true,0⟩, ⟨3440,400,156,400,true,0⟩, ⟨3756,400,156,400,true,0⟩, ⟨4072,400,156,400,true,0⟩, ⟨4388,400,156,400,true,0⟩, ⟨4704,400,156,400,true,0⟩, ⟨5020,400,156,400,true,0⟩, ⟨1736,400,156,400,true,0⟩, ⟨2052,400,156,400,true,0⟩],
    (177/25 : ℚ), 3600, 3600, 2208, (11/5 : ℚ)⟩ := by
  norm_num [World.generateNextBuilding, World.addBuilding, World.gapDraw,
    World.widthDraw, World.newYDraw, World.baseYOf, clampQ, randQ, rintq0,
    World.minGap, World.maxGap, World.minBuildingWidth, World.maxBuildingWidth,
    World.heightVariation, World.groundY, World.canvasWidth, World.canvasHeight]

lemma cxTickB3 :
    World.generateNextBuilding
    ⟨[⟨1860,420,156,380,true,0⟩, ⟨2176,400,156,400,true,0⟩, ⟨2492,400,156,400,true,0⟩, ⟨2808,400,156,400,true,0⟩, ⟨3124,400,156,400,true,0⟩, ⟨3440,400,156,400,true,0⟩, ⟨3756,400,156,400,true,0⟩, ⟨4072,400,156,400,true,0⟩, ⟨4388,400,156,400,true,0⟩, ⟨4704,400,156,400,true,0⟩, ⟨5020,400,156,400,true,0⟩, ⟨1736,400,156,400,true,0⟩, ⟨2052,400,156,400,true,0⟩],
    (177/25 : ℚ), 3600, 3600, 2208, (11/5 : ℚ)⟩ 0 0 0 0 =
    ⟨[⟨1860,420,156,380,true,0⟩, ⟨2176,400,156,400,true,0⟩, ⟨2492,400,156,400,true,0⟩, ⟨2808,400,156,400,true,0⟩, ⟨3124,400,156,400,true,0⟩, ⟨3440,400,156,400,true,0⟩, ⟨3756,400,156,400,true,0⟩, ⟨4072,400,156,400,true,0⟩, ⟨4388,400,156,400,true,0⟩, ⟨4704,400,156,400,true,0⟩, ⟨5020,400,156,400,true,0⟩, ⟨1736,400,156,400,true,0⟩, ⟨2052,400,156,400,true,0⟩, ⟨2368,400,156,400,true,0⟩],
    (177/25 : ℚ), 3600, 3600, 2524, (11/5 : ℚ)⟩ := by
  norm_num [World.generateNextBuilding, World.addBuilding, World.gapDraw,
    World.widthDraw, World.newYDraw, World.baseYOf, clampQ, randQ, rintq0,
    World.minGap, World.maxGap, World.minBuildingWidth, World.maxBuildingWidth,
    World.heightVariation, World.groundY, World.canvasWidth, World.canvasHeight]

lemma cxTickB4 :
    World.generateNextBuilding
    ⟨[⟨1860,420,156,380,true,0⟩, ⟨2176,400,156,400,true,0⟩, ⟨2492,400,156,400,true,0⟩, ⟨2808,400,156,400,true,0⟩, ⟨3124,400,156,400,true,0⟩, ⟨3440,400,156,400,true,0⟩, ⟨3756,400,156,400,true,0⟩, ⟨4072,400,156,400,true,0⟩, ⟨4388,400,156,400,true,0⟩, ⟨4704,400,156,400,true,0⟩, ⟨5020,400,156,400,true,0⟩, ⟨1736,400,156,400,true,0⟩, ⟨2052,400,156,400,true,0⟩, ⟨2368,400,156,400,true,0⟩],
    (177/25 : ℚ), 3600, 3600, 2524, (11/5 : ℚ)⟩ 0 0 0 0 =
    ⟨[⟨1860,420,156,380,true,0⟩, ⟨2176,400,156,400,true,0⟩, ⟨2492,400,156,400,true,0⟩, ⟨2808,400,156,400,true,0⟩, ⟨3124,400,156,400,true,0⟩, ⟨3440,400,156,400,true,0⟩, ⟨3756,400,156,400,true,0⟩, ⟨4072,400,156,400,true,0⟩, ⟨4388,400,156,400,true,0⟩, ⟨4704,400,156,400,true,0⟩, ⟨5020,400,156,400,true,0⟩, ⟨1736,400,156,400,true,0⟩, ⟨2052,400,156,400,true,0⟩, ⟨2368,400,156,400,true,0⟩, ⟨2684,400,156,400,true,0⟩],
    (177/25 : ℚ), 3600, 3600, 2840, (11/5 : ℚ)⟩ := by
  norm_num [World.generateNextBuilding, World.addBuilding, World.gapDraw,
    World.widthDraw, World.newYDraw, World.baseYOf, clampQ, randQ, rintq0,
    World.minGap, World.maxGap, World.minBuildingWidth, World.maxBuildingWidth,
    World.heightVariation, World.groundY, World.canvasWidth, World.canvasHeight]

lemma cxTickB5 :
    World.generateNextBuilding
    ⟨[⟨1860,420,156,380,true,0⟩, ⟨2176,400,156,400,true,0⟩, ⟨2492,400,156,400,true,0⟩, ⟨2808,400,156,400,true,0⟩, ⟨3124,400,156,400,true,0⟩, ⟨3440,400,156,400,true,0⟩, ⟨3756,400,156,400,true,0⟩, ⟨4072,400,156,400,true,0⟩, ⟨4388,400,156,400,true,0⟩, ⟨4704,400,156,400,true,0⟩, ⟨5020,400,156,400,true,0⟩, ⟨1736,400,156,400,true,0⟩, ⟨2052,400,156,400,true,0⟩, ⟨2368,400,156,400,true,0⟩, ⟨2684,400,156,400,true,0⟩],
    (177/25 : ℚ), 3600, 3600, 2840, (11/5 : ℚ)⟩ 0 0 0 0 =
    ⟨[⟨1860,420,156,380,true,0⟩, ⟨2176,400,156,400,true,0⟩, ⟨2492,400,156,400,true,0⟩, ⟨2808,400,156,400,true,0⟩, ⟨3124,400,156,400,true,0⟩, ⟨3440,400,156,400,true,0⟩, ⟨3756,400,156,400,true,0⟩, ⟨4072,400,156,400,true,0⟩, ⟨4388,400,156,400,true,0⟩, ⟨4704,400,156,400,true,0⟩, ⟨5020,400,156,400,true,0⟩, ⟨1736,400,156,400,true,0⟩, ⟨2052,400,156,400,true,0⟩, ⟨2368,400,156,400,true,0⟩, ⟨2684,400,156,400,true,0⟩, ⟨3000,400,156,400,true,0⟩],
    (177/25 : ℚ), 3600, 3600, 3156, (11/5 : ℚ)⟩ := by
  norm_num [World.generateNextBuilding, World.addBuilding, World.gapDraw,
    World.widthDraw, World.newYDraw, World.baseYOf, clampQ, randQ, rintq0,
    World.minGap, World.maxGap, World.minBuildingWidth, World.maxBuildingWidth,
    World.heightVariation, World.groundY, World.canvasWidth, World.canvasHeight]

lemma cxTickB6 :
    World.generateNextBuilding
    ⟨[⟨1860,420,156,380,true,0⟩, ⟨2176,400,156,400,true,0⟩, ⟨2492,400,156,400,true,0⟩, ⟨2808,400,156,400,true,0⟩, ⟨3124,400,156,400,true,0⟩, ⟨3440,400,156,400,true,0⟩, ⟨3756,400,156,400,true,0⟩, ⟨4072,400,156,400,true,0⟩, ⟨4388,400,156,400,true,0⟩, ⟨4704,400,156,400,true,0⟩, ⟨5020,400,156,400,true,0⟩, ⟨1736,400,156,400,true,0⟩, ⟨2052,400,156,400,true,0⟩, ⟨2368,400,156,400,true,0⟩, ⟨2684,400,156,400,true,0⟩, ⟨3000,400,156,400,true,0⟩],
    (177/25 : ℚ), 3600, 3600, 3156, (11/5 : ℚ)⟩ 0 0 0 0 =
    ⟨[⟨1860,420,156,380,true,0⟩, ⟨2176,400,156,400,true,0⟩, ⟨2492,400,156,400,true,0⟩, ⟨2808,400,156,400,true,0⟩, ⟨3124,400,156,400,true,0⟩, ⟨3440,400,156,400,true,0⟩, ⟨3756,400,156,400,true,0⟩, ⟨4072,400,156,400,true,0⟩, ⟨4388,400,156,400,true,0⟩, ⟨4704,400,156,400,true,0⟩, ⟨5020,400,156,400,true,0⟩, ⟨1736,400,156,400,true,0⟩, ⟨2052,400,156,400,true,0⟩, ⟨2368,400,156,400,true,0⟩, ⟨2684,400,156,400,true,0⟩, ⟨3000,400,156,400,true,0⟩, ⟨3316,400,156,400,true,0⟩],
    (177/25 : ℚ), 3600, 3600, 3472, (11/5 : ℚ)⟩ := by
  norm_num [World.generateNextBuilding, World.addBuilding, World.gapDraw,
    World.widthDraw, World.newYDraw, World.baseYOf, clampQ, randQ, rintq0,
    World.minGap, World.maxGap, World.minBuildingWidth, World.maxBuildingWidth,
    World.heightVariation, World.groundY, World.canvasWidth, World.canvasHeight]

lemma cxTickB7 :
    World.generateNextBuilding
    ⟨[⟨1860,420,156,380,true,0⟩, ⟨2176,400,156,400,true,0⟩, ⟨2492,400,156,400,true,0⟩, ⟨2808,400,156,400,true,0⟩, ⟨3124,400,156,400,true,0⟩, ⟨3440,400,156,400,true,0⟩, ⟨3756,400,156,400,true,0⟩, ⟨4072,400,156,400,true,0⟩, ⟨4388,400,156,400,true,0⟩, ⟨4704,400,156,400,true,0⟩, ⟨5020,400,156,400,true,0⟩, ⟨1736,400,156,400,true,0⟩, ⟨2052,400,156,400,true,0⟩, ⟨2368,400,156,400,true,0⟩, ⟨2684,400,156,400,true,0⟩, ⟨3000,400,156,400,true,0⟩, ⟨3316,400,156,400,true,0⟩],
    (177/25 : ℚ), 3600, 3600, 3472, (11/5 : ℚ)⟩ 0 0 0 0 =
    ⟨[⟨1860,420,156,380,true,0⟩, ⟨2176,400,156,400,true,0⟩, ⟨2492,400,156,400,true,0⟩, ⟨2808,400,156,400,true,0⟩, ⟨3124,400,156,400,true,0⟩, ⟨3440,400,156,400,true,0⟩, ⟨3756,400,156,400,true,0⟩, ⟨4072,400,156,400,true,0⟩, ⟨4388,400,156,400,true,0⟩, ⟨4704,400,156,400,true,0⟩, ⟨5020,400,156,400,true,0⟩, ⟨1736,400,156,400,true,0⟩, ⟨2052,400,156,400,true,0⟩, ⟨2368,400,156,400,true,0⟩, ⟨2684,400,156,400,true,0⟩, ⟨3000,400,156,400,true,0⟩, ⟨3316,400,156,400,true,0⟩, ⟨3632,400,156,400,true,0⟩],
    (177/25 : ℚ), 3600, 3600, 3788, (11/5 : ℚ)⟩ := by
  norm_num [World.generateNextBuilding, World.addBuilding, World.gapDraw,
    World.widthDraw, World.newYDraw, World.baseYOf, clampQ, randQ, rintq0,
    World.minGap, World.maxGap, World.minBuildingWidth, World.maxBuildingWidth,
    World.heightVariation, World.groundY, World.canvasWidth, World.canvasHeight]

lemma cxTickB8 :
    World.generateNextBuilding
    ⟨[⟨1860,420,156,380,true,0⟩, ⟨2176,400,156,400,true,0⟩, ⟨2492,400,156,400,true,0⟩, ⟨2808,400,156,400,true,0⟩, ⟨3124,400,156,400,true,0⟩, ⟨3440,400,156,400,true,0⟩, ⟨3756,400,156,400,true,0⟩, ⟨4072,400,156,400,true,0⟩, ⟨4388,400,156,400,true,0⟩, ⟨4704,400,156,400,true,0⟩, ⟨5020,400,156,400,true,0⟩, ⟨1736,400,156,400,true,0⟩, ⟨2052,400,156,400,true,0⟩, ⟨2368,400,156,400,true,0⟩, ⟨2684,400,156,400,true,0⟩, ⟨3000,400,156,400,true,0⟩, ⟨3316,400,156,400,true,0⟩, ⟨3632,400,156,400,true,0⟩],
    (177/25 : ℚ), 3600, 3600, 3788, (11/5 : ℚ)⟩ 0 0 0 0 =
    ⟨[⟨1860,420,156,380,true,0⟩, ⟨2176,400,156,400,true,0⟩, ⟨2492,400,156,400,true,0⟩, ⟨2808,400,156,400,true,0⟩, ⟨3124,400,156,400,true,0⟩, ⟨3440,400,156,400,true,0⟩, ⟨3756,400,156,400,true,0⟩, ⟨4072,400,156,400,true,0⟩, ⟨4388,400,156,400,true,0⟩, ⟨4704,400,156,400,true,0⟩, ⟨5020,400,156,400,true,0⟩, ⟨1736,400,156,400,true,0⟩, ⟨2052,400,156,400,true,0⟩, ⟨2368,400,156,400,true,0⟩, ⟨2684,400,156,400,true,0⟩, ⟨3000,400,156,400,true,0⟩, ⟨3316,400,156,400,true,0⟩, ⟨3632,400,156,400,true,0⟩, ⟨3948,400,156,400,true,0⟩],
    (177/25 : ℚ), 3600, 3600, 4104, (11/5 : ℚ)⟩ := by
  norm_num [World.generateNextBuilding, World.addBuilding, World.gapDraw,
    World.widthDraw, World.newYDraw, World.baseYOf, clampQ, randQ, rintq0,
    World.minGap, World.maxGap, World.minBuildingWidth, World.maxBuildingWidth,
    World.heightVariation, World.groundY, World.canvasWidth, World.canvasHeight]

lemma cxTickB9 :
    World.generateNextBuilding
    ⟨[⟨1860,420,156,380,true,0⟩, ⟨2176,400,156,400,true,0⟩, ⟨2492,400,156,400,true,0⟩, ⟨2808,400,156,400,true,0⟩, ⟨3124,400,156,400,true,0⟩, ⟨3440,400,156,400,true,0⟩, ⟨3756,400,156,400,true,0⟩, ⟨4072,400,156,400,true,0⟩, ⟨4388,400,156,400,true,0⟩, ⟨4704,400,156,400,true,0⟩, ⟨5020,400,156,400,true,0⟩, ⟨1736,400,156,400,true,0⟩, ⟨2052,400,156,400,true,0⟩, ⟨2368,400,156,400,true,0⟩, ⟨2684,400,156,400,true,0⟩, ⟨3000,400,156,400,true,0⟩, ⟨3316,400,156,400,true,0⟩, ⟨3632,400,156,400,true,0⟩, ⟨3948,400,156,400,true,0⟩],
    (177/25 : ℚ), 3600, 3600, 4104, (11/5 : ℚ)⟩ 0 0 0 0 =
    ⟨[⟨1860,420,156,380,true,0⟩, ⟨2176,400,156,400,true,0⟩, ⟨2492,400,156,400,true,0⟩, ⟨2808,400,156,400,true,0⟩, ⟨3124,400,156,400,true,0⟩, ⟨3440,400,156,400,true,0⟩, ⟨3756,400,156,400,true,0⟩, ⟨4072,400,156,400,true,0⟩, ⟨4388,400,156,400,true,0⟩, ⟨4704,400,156,400,true,0⟩, ⟨5020,400,156,400,true,0⟩, ⟨1736,400,156,400,true,0⟩, ⟨2052,400,156,400,true,0⟩, ⟨2368,400,156,400,true,0⟩, ⟨2684,400,156,400,true,0⟩, ⟨3000,400,156,400,true,0⟩, ⟨3316,400,156,400,true,0⟩, ⟨3632,400,156,400,true,0⟩, ⟨3948,400,156,400,true,0⟩, ⟨4264,400,156,400,true,0⟩],
    (177/25 : ℚ), 3600, 3600, 4420, (11/5 : ℚ)⟩ := by
  norm_num [World.generateNextBuilding, World.addBuilding, World.gapDraw,
    World.widthDraw, World.newYDraw, World.baseYOf, clampQ, randQ, rintq0,
    World.minGap, World.maxGap, World.minBuildingWidth, World.maxBuildingWidth,
    World.heightVariation, World.groundY, World.canvasWidth, World.canvasHeight]

lemma cxTickB10 :
    World.generateNextBuilding
    ⟨[⟨1860,420,156,380,true,0⟩, ⟨2176,400,156,400,true,0⟩, ⟨2492,400,156,400,true,0⟩, ⟨2808,400,156,400,true,0⟩, ⟨3124,400,156,400,true,0⟩, ⟨3440,400,156,400,true,0⟩, ⟨3756,400,156,400,true,0⟩, ⟨4072,400,156,400,true,0⟩, ⟨4388,400,156,400,true,0⟩, ⟨4704,400,156,400,true,0⟩, ⟨5020,400,156,400,true,0⟩, ⟨1736,400,156,400,true,0⟩, ⟨2052,400,156,400,true,0⟩, ⟨2368,400,156,400,true,0⟩, ⟨2684,400,156,400,true,0⟩, ⟨3000,400,156,400,true,0⟩, ⟨3316,400,156,400,true,0⟩, ⟨3632,400,156,400,true,0⟩, ⟨3948,400,156,400,true,0⟩, ⟨4264,400,156,400,true,0⟩],
    (177/25 : ℚ), 3600, 3600, 4420, (11/5 : ℚ)⟩ 0 0 0 0 =
    ⟨[⟨1860,420,156,380,true,0⟩, ⟨2176,400,156,400,true,0⟩, ⟨2492,400,156,400,true,0⟩, ⟨2808,400,156,400,true,0⟩, ⟨3124,400,156,400,true,0⟩, ⟨3440,400,156,400,true,0⟩, ⟨3756,400,156,400,true,0⟩, ⟨4072,400,156,400,true,0⟩, ⟨4388,400,156,400,true,0⟩, ⟨4704,400,156,400,true,0⟩, ⟨5020,400,156,400,true,0⟩, ⟨1736,400,156,400,true,0⟩, ⟨2052,400,156,400,true,0⟩, ⟨2368,400,156,400,true,0⟩, ⟨2684,400,156,400,true,0⟩, ⟨3000,400,156,400,true,0⟩, ⟨3316,400,156,400,true,0⟩, ⟨3632,400,156,400,true,0⟩, ⟨3948,400,156,400,true,0⟩, ⟨4264,400,156,400,true,0⟩, ⟨4580,400,156,400,true,0⟩],
    (177/25 : ℚ), 3600, 3600, 4736, (11/5 : ℚ)⟩ := by
  norm_num [World.generateNextBuilding, World.addBuilding, World.gapDraw,
    World.widthDraw, World.newYDraw, World.baseYOf, clampQ, randQ, rintq0,
    World.minGap, World.maxGap, World.minBuildingWidth, World.maxBuildingWidth,
    World.heightVariation, World.groundY, World.canvasWidth, World.canvasHeight]

lemma cxTickB11 :
    World.generateNextBuilding
    ⟨[⟨1860,420,156,380,true,0⟩, ⟨2176,400,156,400,true,0⟩, ⟨2492,400,156,400,true,0⟩, ⟨2808,400,156,400,true,0⟩, ⟨3124,400,156,400,true,0⟩, ⟨3440,400,156,400,true,0⟩, ⟨3756,400,156,400,true,0⟩, ⟨4072,400,156,400,true,0⟩, ⟨4388,400,156,400,true,0⟩, ⟨4704,400,156,400,true,0⟩, ⟨5020,400,156,400,true,0⟩, ⟨1736,400,156,400,true,0⟩, ⟨2052,400,156,400,true,0⟩, ⟨2368,400,156,400,true,0⟩, ⟨2684,400,156,400,true,0⟩, ⟨3000,400,156,400,true,0⟩, ⟨3316,400,156,400,true,0⟩, ⟨3632,400,156,400,true,0⟩, ⟨3948,400,156,400,true,0⟩, ⟨4264,400,156,400,true,0⟩, ⟨4580,400,156,400,true,0⟩],
    (177/25 : ℚ), 3600, 3600, 4736, (11/5 : ℚ)⟩ 0 0 0 0 =
    ⟨[⟨1860,420,156,380,true,0⟩, ⟨2176,400,156,400,true,0⟩, ⟨2492,400,156,400,true,0⟩, ⟨2808,400,156,400,true,0⟩, ⟨3124,400,156,400,true,0⟩, ⟨3440,400,156,400,true,0⟩, ⟨3756,400,156,400,true,0⟩, ⟨4072,400,156,400,true,0⟩, ⟨4388,400,156,400,true,0⟩, ⟨4704,400,156,400,true,0⟩, ⟨5020,400,156,400,true,0⟩, ⟨1736,400,156,400,true,0⟩, ⟨2052,400,156,400,true,0⟩, ⟨2368,400,156,400,true,0⟩, ⟨2684,400,156,400,true,0⟩, ⟨3000,400,156,400,true,0⟩, ⟨3316,400,156,400,true,0⟩, ⟨3632,400,156,400,true,0⟩, ⟨3948,400,156,400,true,0⟩, ⟨4264,400,156,400,true,0⟩, ⟨4580,400,156,400,true,0⟩, ⟨4896,400,156,400,true,0⟩],
    (177/25 : ℚ), 3600, 3600, 5052, (11/5 : ℚ)⟩ := by
  norm_num [World.generateNextBuilding, World.addBuilding, World.gapDraw,
    World.widthDraw, World.newYDraw, World.baseYOf, clampQ, randQ, rintq0,
    World.minGap, World.maxGap, World.minBuildingWidth, World.maxBuildingWidth,
    World.heightVariation, World.groundY, World.canvasWidth, World.canvasHeight]

lemma cxW0 : World.initWorld zeroDraws 50 =
    ⟨[⟨0,500,400,300,true,0⟩, ⟨480,420,180,380,true,0⟩, ⟨740,400,180,400,true,0⟩, ⟨1000,400,180,400,true,0⟩, ⟨1260,400,180,400,true,0⟩, ⟨1520,400,180,400,true,0⟩],
    6, 0, 0, 1700, 1⟩ := by
  norm_num [World.initWorld, World.generateInitialBuildings, World.addBuilding,
    World.genLoopInit, zeroDraws, rintq0, World.groundY, World.canvasWidth,
    World.canvasHeight, World.baseSpeed,
    cxInit1, cxInit2, cxInit3, cxInit4, cxInit5]

lemma cxW1 : World.update (⟨[⟨0,500,400,300,true,0⟩, ⟨480,420,180,380,true,0⟩, ⟨740,400,180,400,true,0⟩, ⟨1000,400,180,400,true,0⟩, ⟨1260,400,180,400,true,0⟩, ⟨1520,400,180,400,true,0⟩],
    6, 0, 0, 1700, 1⟩) 10002 zeroDraws 50 =
    ⟨[⟨1860,420,156,380,true,0⟩, ⟨2176,400,156,400,true,0⟩, ⟨2492,400,156,400,true,0⟩, ⟨2808,400,156,400,true,0⟩, ⟨3124,400,156,400,true,0⟩, ⟨3440,400,156,400,true,0⟩, ⟨3756,400,156,400,true,0⟩, ⟨4072,400,156,400,true,0⟩, ⟨4388,400,156,400,true,0⟩, ⟨4704,400,156,400,true,0⟩, ⟨5020,400,156,400,true,0⟩],
    (177/25 : ℚ), 3600, 3600, 1576, (11/5 : ℚ)⟩ := by
  norm_num [World.update, World.genLoopUpdate, World.removeOffscreen, zeroDraws,
    World.frameRef, World.baseSpeed, World.maxSpeed, World.speedIncreaseRate,
    World.canvasWidth,
    cxTickA1, cxTickA2, cxTickA3, cxTickA4, cxTickA5, cxTickA6, cxTickA7, cxTickA8, cxTickA9, cxTickA10, cxTickA11]

lemma cxW2 : World.update (⟨[⟨1860,420,156,380,true,0⟩, ⟨2176,400,156,400,true,0⟩, ⟨2492,400,156,400,true,0⟩, ⟨2808,400,156,400,true,0⟩, ⟨3124,400,156,400,true,0⟩, ⟨3440,400,156,400,true,0⟩, ⟨3756,400,156,400,true,0⟩, ⟨4072,400,156,400,true,0⟩, ⟨4388,400,156,400,true,0⟩, ⟨4704,400,156,400,true,0⟩, ⟨5020,400,156,400,true,0⟩],
    (177/25 : ℚ), 3600, 3600, 1576, (11/5 : ℚ)⟩) 0 zeroDraws 50 =
    ⟨[⟨1860,420,156,380,true,0⟩, ⟨2176,400,156,400,true,0⟩, ⟨2492,400,156,400,true,0⟩, ⟨2808,400,156,400,true,0⟩, ⟨3124,400,156,400,true,0⟩, ⟨3440,400,156,400,true,0⟩, ⟨3756,400,156,400,true,0⟩, ⟨4072,400,156,400,true,0⟩, ⟨4388,400,156,400,true,0⟩, ⟨4704,400,156,400,true,0⟩, ⟨5020,400,156,400,true,0⟩, ⟨1736,400,156,400,true,0⟩, ⟨2052,400,156,400,true,0⟩, ⟨2368,400,156,400,true,0⟩, ⟨2684,400,156,400,true,0⟩, ⟨3000,400,156,400,true,0⟩, ⟨3316,400,156,400,true,0⟩, ⟨3632,400,156,400,true,0⟩, ⟨3948,400,156,400,true,0⟩, ⟨4264,400,156,400,true,0⟩, ⟨4580,400,156,400,true,0⟩, ⟨4896,400,156,400,true,0⟩],
    (177/25 : ℚ), 3600, 3600, 5052, (11/5 : ℚ)⟩ := by
  norm_num [World.update, World.genLoopUpdate, World.removeOffscreen, zeroDraws,
    World.frameRef, World.baseSpeed, World.maxSpeed, World.speedIncreaseRate,
    World.canvasWidth,
    cxTickB1, cxTickB2, cxTickB3, cxTickB4, cxTickB5, cxTickB6, cxTickB7, cxTickB8, cxTickB9, cxTickB10, cxTickB11]

/-- C1 counterexample: the claim as stated (arbitrary non-negative
delta time) is false. After `World.update` with `deltaTime = 10002`
(a single stalled frame) followed by `World.update` with
`deltaTime = 0`, the world — reachable per the claim's own
quantification — contains an earlier-generated active building spanning
`[1860, 2016]` and a later-generated active building starting at
`x = 1736 < 2016`: the spans overlap. -/
theorem building_overlap_with_unbounded_delta :
    ¬ (World.update (World.update (World.initWorld zeroDraws 50) 10002 zeroDraws 50)
        0 zeroDraws 50).buildings.Pairwise (fun A B => A.x + A.width ≤ B.x) := by
  rw [cxW0, cxW1, cxW2]
  intro h
  have h1 := (List.pairwise_iff_get.mp h) ⟨0, by norm_num⟩ ⟨11, by norm_num⟩
    (by norm_num [Fin.lt_def])
  simp only [List.get] at h1
  norm_num at h1

/-! ### Side-collision death (C3) -/

namespace Game

lemma findSideHit_some_of {q : PlayerState} :
    ∀ {bs : List Building} {b : Building}, b ∈ bs → b.active = true →
      sideHit q b → ∃ c, findSideHit q bs = some c := by
  intro bs
  induction bs with
  | nil => intro b hb; cases hb
  | cons a rest ih =>
    intro b hb hact hhit
    simp only [findSideHit]
    split_ifs with hc
    · exact ⟨a, rfl⟩
    · rcases List.mem_cons.mp hb with rfl | hb2
      · exact absurd ⟨hact, hhit⟩ hc
      · exact ih hb2 hact hhit

lemma findSideHit_none_of {q : PlayerState} :
    ∀ {bs : List Building}, (∀ b ∈ bs, b.active = true → ¬ sideHit q b) →
      findSideHit q bs = none := by
  intro bs
  induction bs with
  | nil => intro _; rfl
  | cons a rest ih =>
    intro hno
    simp only [findSideHit]
    split_ifs with hc
    · exact absurd hc.2 (hno a (List.mem_cons_self a rest) hc.1)
    · exact ih (fun b hb => hno b (List.mem_cons_of_mem _ hb))

lemma landingResolve_died {p2 : PlayerState} {prevY : ℚ} {wasGrounded : Bool}
    {cb : Option Building} (h : (landingResolve p2 prevY wasGrounded cb).2 = true) :
    (landingResolve p2 prevY wasGrounded cb).1.alive = false := by
  rcases cb with _ | b
  · simp [landingResolve] at h
  · simp only [landingResolve] at h ⊢
    split_ifs at h ⊢
    all_goals simp_all [Player.die]

end Game

/-- C3 (amended: the source's additional guard `player.y < canvasHeight`
is part of the trigger — a player whose top edge has already fallen past
the bottom of the viewport is not side-killed on that tick, see the
counterexample): whenever, at the moment `Game.update` runs its
side-collision loop, some active building has the player's right edge
past its left face, the player's left edge not past it, and the player's
bottom more than the 10-pixel tolerance below its rooftop line (with the
player's top still above the viewport bottom), the tick ends in death
and the game-over transition fires, never in a landing on that
building. -/
theorem side_collision_death (w : WorldState) (p : PlayerState) (dt : ℚ) (jh : Bool)
    (σ : DrawStream) (fuel : ℕ) (wpost : WorldState) (q : PlayerState) (b : Building)
    (hw : wpost = World.update w dt σ fuel)
    (hq : q = (Game.sideLoopEntry wpost p dt jh).1)
    (hb : b ∈ wpost.buildings) (hact : b.active = true)
    (h1 : q.x + q.width > b.x) (h2 : q.x < b.x)
    (h3 : q.y + q.height > b.y + 10) (h4 : q.y < Game.canvasHeight) :
    (Game.update w p dt jh σ fuel).player.alive = false ∧
    (Game.update w p dt jh σ fuel).gameOver = true := by
  have hGU : Game.update w p dt jh σ fuel = Game.tickAfterWorld wpost p dt jh := by
    rw [hw]; rfl
  rw [hGU]
  simp only [Game.tickAfterWorld]
  by_cases hdied : (Game.sideLoopEntry wpost p dt jh).2 = true
  · rw [if_pos hdied]
    exact ⟨Game.landingResolve_died hdied, rfl⟩
  · rw [if_neg hdied]
    obtain ⟨c, hc⟩ := Game.findSideHit_some_of hb hact
      (show Game.sideHit q b from ⟨h1, h2, h3, h4⟩)
    rw [← hq]
    simp [Game.sidePhase, hc, Player.die]

/-! ### Kinematic analysis of `Player.update` (for C2) -/

namespace Player

/-- The player's vertical position after gravity and integration but
before ground resolution, as computed inside `Player.update`. -/
def integratedY (p : PlayerState) (deltaTime : ℚ) : ℚ :=
  p.y + (Physics.applyGravity p (deltaTime / World.frameRef)).velocityY *
    (deltaTime / World.frameRef)

lemma cosmetics_fields (p : PlayerState) (dt : ℚ) :
    (cosmetics p dt).x = p.x ∧ (cosmetics p dt).y = p.y ∧
    (cosmetics p dt).width = p.width ∧ (cosmetics p dt).height = p.height ∧
    (cosmetics p dt).velocityY = p.velocityY ∧
    (cosmetics p dt).grounded = p.grounded ∧
    (cosmetics p dt).alive = p.alive ∧ (cosmetics p dt).isJumping = p.isJumping := by
  simp only [cosmetics]
  split_ifs <;> simp

lemma physStep_snap (p : PlayerState) (dt gY : ℚ)
    (h : gY < integratedY p dt + p.height) :
    (physStep p dt gY).y = gY - p.height ∧
    (physStep p dt gY).velocityY = 0 ∧
    (physStep p dt gY).grounded = true ∧
    (physStep p dt gY).x = p.x ∧ (physStep p dt gY).width = p.width ∧
    (physStep p dt gY).height = p.height ∧ (physStep p dt gY).alive = p.alive := by
  unfold integratedY at h
  have hcond : p.y + (Physics.applyGravity p (dt / World.frameRef)).velocityY *
      (dt / World.frameRef) + p.height > gY := by linarith
  simp only [physStep, Physics.resolveGroundCollision]
  simp only [show (Physics.applyGravity p (dt / World.frameRef)).y = p.y from rfl,
             show (Physics.applyGravity p (dt / World.frameRef)).height = p.height from rfl]
  rw [if_pos hcond]
  simp [show (Physics.applyGravity p (dt / World.frameRef)).x = p.x from rfl,
        show (Physics.applyGravity p (dt / World.frameRef)).width = p.width from rfl,
        show (Physics.applyGravity p (dt / World.frameRef)).alive = p.alive from rfl]

lemma physStep_nosnap (p : PlayerState) (dt gY : ℚ)
    (h : integratedY p dt + p.height ≤ gY) :
    (physStep p dt gY).y = integratedY p dt ∧
    (physStep p dt gY).velocityY =
      (Physics.applyGravity p (dt / World.frameRef)).velocityY ∧
    (physStep p dt gY).grounded = false ∧
    (physStep p dt gY).x = p.x ∧ (physStep p dt gY).width = p.width ∧
    (physStep p dt gY).height = p.height ∧ (physStep p dt gY).alive = p.alive := by
  have hcond : ¬ (p.y + (Physics.applyGravity p (dt / World.frameRef)).velocityY *
      (dt / World.frameRef) + p.height > gY) := by
    unfold integratedY at h
    linarith
  simp only [physStep, Physics.resolveGroundCollision]
  simp only [show (Physics.applyGravity p (dt / World.frameRef)).y = p.y from rfl,
             show (Physics.applyGravity p (dt / World.frameRef)).height = p.height from rfl]
  rw [if_neg hcond]
  simp [integratedY,
        show (Physics.applyGravity p (dt / World.frameRef)).x = p.x from rfl,
        show (Physics.applyGravity p (dt / World.frameRef)).width = p.width from rfl,
        show (Physics.applyGravity p (dt / World.frameRef)).alive = p.alive from rfl]

lemma update_snap (p : PlayerState) (dt gY : ℚ)
    (h : gY < integratedY p dt + p.height) :
    (update p dt gY).y = gY - p.height ∧
    (update p dt gY).velocityY = 0 ∧
    (update p dt gY).grounded = true ∧
    (update p dt gY).x = p.x ∧ (update p dt gY).width = p.width ∧
    (update p dt gY).height = p.height ∧ (update p dt gY).alive = p.alive := by
  obtain ⟨cx, cy, cw, ch, cv, cg, ca, cj⟩ := cosmetics_fields (physStep p dt gY) dt
  obtain ⟨sy, sv, sg, sx, sw, sh, sa⟩ := physStep_snap p dt gY h
  exact ⟨cy.trans sy, cv.trans sv, cg.trans sg, cx.trans sx, cw.trans sw,
    ch.trans sh, ca.trans sa⟩

lemma update_nosnap (p : PlayerState) (dt gY : ℚ)
    (h : integratedY p dt + p.height ≤ gY) :
    (update p dt gY).y = integratedY p dt ∧
    (update p dt gY).velocityY =
      (Physics.applyGravity p (dt / World.frameRef)).velocityY ∧
    (update p dt gY).grounded = false ∧
    (update p dt gY).x = p.x ∧ (update p dt gY).width = p.width ∧
    (update p dt gY).height = p.height ∧ (update p dt gY).alive = p.alive := by
  obtain ⟨cx, cy, cw, ch, cv, cg, ca, cj⟩ := cosmetics_fields (physStep p dt gY) dt
  obtain ⟨sy, sv, sg, sx, sw, sh, sa⟩ := physStep_nosnap p dt gY h
  exact ⟨cy.trans sy, cv.trans sv, cg.trans sg, cx.trans sx, cw.trans sw,
    ch.trans sh, ca.trans sa⟩

lemma holdJump_id {p : PlayerState} (dt : ℚ) (h : 0 ≤ p.velocityY) :
    holdJump p dt = p := by
  unfold holdJump
  rw [if_neg]
  rintro ⟨-, -, h3⟩
  linarith

end Player

lemma applyGravity_pos {p : PlayerState} {dt : ℚ}
    (h1 : 0 ≤ p.velocityY) (h2 : 0 < dt) :
    0 < (Physics.applyGravity p dt).velocityY := by
  simp only [Physics.applyGravity]
  split_ifs with h
  · norm_num [Physics.terminalVelocity]
  · show 0 < p.velocityY + Physics.gravity * dt
    unfold Physics.gravity
    nlinarith

lemma heldPlayer_id {p : PlayerState} (dt : ℚ) (jh : Bool) (h : 0 ≤ p.velocityY) :
    Game.heldPlayer p dt jh = p := by
  cases jh <;> simp [Game.heldPlayer, Player.holdJump_id dt h]

/-- C2 (amended: the tick's delta time must be strictly positive — at
`deltaTime = 0` a player resting exactly on the rooftop line with zero
velocity is neither snapped nor landed, see the counterexample): if
during one `Game.update` tick the player starts airborne with
`velocityY ≥ 0` over an active building of the (structurally sound)
updated world, the previous bottom edge was at-or-above the rooftop
within the 5-pixel epsilon, the post-physics bottom edge is
at-or-below the rooftop, and the previous top edge was strictly above
the rooftop, then the tick ends grounded with `velocityY = 0` and the
player is not killed on that tick. -/
theorem landing_determinism (w : WorldState) (p : PlayerState) (dt : ℚ) (jh : Bool)
    (σ : DrawStream) (fuel : ℕ) (wpost : WorldState) (b : Building)
    (hw : wpost = World.update w dt σ fuel)
    (hOK : BuildingsOK wpost.buildings)
    (hdt : 0 < dt)
    (hgr : p.grounded = false) (hvy : 0 ≤ p.velocityY) (halive : p.alive = true)
    (hpw : p.width = 32) (hph : p.height = 48)
    (hcb : World.getBuildingAt wpost.buildings (p.x + p.width / 2) 1 = some b)
    (hprevBot : p.y + p.height ≤ b.y + 5)
    (hprevTop : p.y < b.y)
    (hpostBot : b.y ≤ Player.integratedY p dt + p.height) :
    (Game.update w p dt jh σ fuel).player.grounded = true ∧
    (Game.update w p dt jh σ fuel).player.velocityY = 0 ∧
    (Game.update w p dt jh σ fuel).player.alive = true ∧
    (Game.update w p dt jh σ fuel).gameOver = false := by
  have hGU : Game.update w p dt jh σ fuel = Game.tickAfterWorld wpost p dt jh := by
    rw [hw]; rfl
  rw [hGU]
  have hp0 : Game.heldPlayer p dt jh = p := heldPlayer_id dt jh hvy
  have hcb2 : Game.currentBuildingOf wpost p dt jh = some b := by
    unfold Game.currentBuildingOf
    rw [hp0]
    exact hcb
  have hpre : Game.preLandingPlayer wpost p dt jh = Player.update p dt b.y := by
    simp [Game.preLandingPlayer, hp0, hcb2, hgr, Game.groundLevel]
  obtain ⟨hbmem, hbact, hfeet1, hfeet2⟩ := World.getBuildingAt_eq_some hcb
  have hk0 : 0 < dt / World.frameRef := by
    apply div_pos hdt
    norm_num [World.frameRef]
  have hvpos : 0 < (Physics.applyGravity p (dt / World.frameRef)).velocityY :=
    applyGravity_pos hvy hk0
  have hQ : ∃ q : PlayerState, Game.sideLoopEntry wpost p dt jh = (q, false) ∧
      q.grounded = true ∧ q.velocityY = 0 ∧ q.y = b.y - p.height ∧
      q.x = p.x ∧ q.width = p.width ∧ q.height = p.height ∧ q.alive = p.alive := by
    rcases lt_or_eq_of_le hpostBot with hlt | heq
    · obtain ⟨sy, sv, sg, sx, sw, sh, sa⟩ := Player.update_snap p dt b.y hlt
      refine ⟨Player.update p dt b.y, ?_, sg, sv, sy, sx, sw, sh, sa⟩
      unfold Game.sideLoopEntry
      rw [hpre, hp0, hgr, hcb2]
      simp only [Game.landingResolve]
      rw [if_neg]
      rintro ⟨-, hgt, -, -⟩
      rw [sv] at hgt
      exact lt_irrefl 0 hgt
    · obtain ⟨sy, sv, sg, sx, sw, sh, sa⟩ :=
        Player.update_nosnap p dt b.y (le_of_eq heq.symm)
      refine ⟨Player.landOnBuilding (Player.update p dt b.y) b.y, ?_,
        rfl, rfl, ?_, sx, sw, sh, sa⟩
      · unfold Game.sideLoopEntry
        rw [hpre, hp0, hgr, hcb2]
        simp only [Game.landingResolve]
        rw [if_pos ⟨by trivial, by rw [sv]; exact hvpos, by rw [sh]; exact hprevBot,
          by rw [sy, sh]; linarith⟩]
        rw [if_pos hprevTop]
      · show b.y - (Player.update p dt b.y).height = b.y - p.height
        rw [sh]
  obtain ⟨q, hlr, qg, qv, qy, qx, qw, qh, qa⟩ := hQ
  have hroof := hOK.2.2 b hbmem
  have hnone : Game.findSideHit q wpost.buildings = none := by
    apply Game.findSideHit_none_of
    intro e he hea hhit
    obtain ⟨s1, s2, s3, s4⟩ := hhit
    rcases pairwise_rel_of_mem hOK.1 hbmem he with rfl | hbe | heb
    · -- the landed building itself: the bottom sits exactly on its rooftop
      rw [qy, qh] at s3
      linarith
    · -- a building generated after b: it starts more than a player width
      -- past b's right edge, beyond the player's right edge
      rw [qx, qw, hpw] at s1
      linarith
    · -- a building generated before b: its right face lies left of the
      -- player's feet, so its left face cannot be ahead of the player
      have hew := hOK.2.1 e he
      rw [qx] at s2
      linarith
  have hfall : ¬ (q.y > Game.canvasHeight + 50) := by
    rw [qy, hph]
    unfold Game.canvasHeight
    intro hcon
    linarith [hroof.2]
  rw [show Game.tickAfterWorld wpost p dt jh =
    (if (Game.sideLoopEntry wpost p dt jh).2 = true then
      ⟨wpost, (Game.sideLoopEntry wpost p dt jh).1, true⟩
     else Game.sidePhase wpost (Game.sideLoopEntry wpost p dt jh).1) from rfl]
  rw [hlr]
  rw [if_neg Bool.false_ne_true]
  show (Game.sidePhase wpost q).player.grounded = true ∧
    (Game.sidePhase wpost q).player.velocityY = 0 ∧
    (Game.sidePhase wpost q).player.alive = true ∧
    (Game.sidePhase wpost q).gameOver = false
  simp only [Game.sidePhase, hnone]
  rw [if_neg hfall]
  exact ⟨qg, qv, qa.trans halive, rfl⟩

/-! ### Concrete landing and side-collision scenarios -/

/-- A small world: one building spanning `[84, 284]` with rooftop 452,
frontier far enough out that a zero-delta update generates nothing. -/
def cexLandWorld : WorldState := ⟨[⟨84, 452, 200, 348, true, 0⟩], 6, 0, 0, 2000, 1⟩

/-- An airborne player resting bottom-exactly on the rooftop line of
`cexLandWorld`'s building, with zero vertical velocity. -/
def cexLandPlayer : PlayerState :=
  ⟨100, 404, 32, 48, 0, 0, false, true, false, 0, 0, 0, []⟩

lemma cexLandW0 : World.update cexLandWorld 0 zeroDraws 50 = cexLandWorld := by
  norm_num [cexLandWorld, World.update, World.genLoopUpdate, World.removeOffscreen,
    zeroDraws, World.frameRef, World.baseSpeed, World.maxSpeed,
    World.speedIncreaseRate, World.canvasWidth]

lemma cexLandTick :
    (Game.update cexLandWorld cexLandPlayer 0 false zeroDraws 50).player.grounded
      = false := by
  have h : Game.update cexLandWorld cexLandPlayer 0 false zeroDraws 50 =
      Game.tickAfterWorld cexLandWorld cexLandPlayer 0 false := by
    show Game.tickAfterWorld (World.update cexLandWorld 0 zeroDraws 50)
      cexLandPlayer 0 false = _
    rw [cexLandW0]
  rw [h]
  norm_num [Game.tickAfterWorld, Game.sideLoopEntry, Game.landingResolve,
    Game.preLandingPlayer, Game.heldPlayer, Game.currentBuildingOf,
    Game.groundLevel, Game.sidePhase, Game.findSideHit, Game.sideHit,
    Game.canvasHeight, World.getBuildingAt, Player.update, Player.physStep,
    Player.cosmetics, Player.fadeTrail, Player.holdJump, Player.maxTrailLength,
    Player.animationSpeed, Physics.applyGravity, Physics.resolveGroundCollision,
    Physics.gravity, Physics.terminalVelocity, World.frameRef,
    Player.die, Player.landOnBuilding, cexLandWorld, cexLandPlayer]

/-- C2 counterexample: the claim as stated fails at `deltaTime = 0`.
All of the claim's hypotheses hold — the player starts airborne with
`velocityY = 0 ≥ 0` over the active building, its previous bottom edge
(452) is within the epsilon of the rooftop, its post-physics bottom
edge (still 452) is at the rooftop, and its previous top edge (404) is
strictly above it — yet the tick ends with `grounded = false`: the
ground snap needs strict penetration and the landing branch needs
`velocityY > 0`, and at `deltaTime = 0` neither fires. -/
theorem landing_fails_at_zero_delta :
    cexLandPlayer.grounded = false ∧
    0 ≤ cexLandPlayer.velocityY ∧
    cexLandPlayer.alive = true ∧
    World.getBuildingAt (World.update cexLandWorld 0 zeroDraws 50).buildings
      (cexLandPlayer.x + cexLandPlayer.width / 2) 1
      = some ⟨84, 452, 200, 348, true, 0⟩ ∧
    cexLandPlayer.y + cexLandPlayer.height ≤ 452 + 5 ∧
    (452 : ℚ) ≤ Player.integratedY cexLandPlayer 0 + cexLandPlayer.height ∧
    cexLandPlayer.y < 452 ∧
    (Game.update cexLandWorld cexLandPlayer 0 false zeroDraws 50).player.grounded
      = false := by
  refine ⟨rfl, by norm_num [cexLandPlayer], rfl, ?_,
    by norm_num [cexLandPlayer], ?_, by norm_num [cexLandPlayer], cexLandTick⟩
  · rw [cexLandW0]
    norm_num [cexLandWorld, World.getBuildingAt, cexLandPlayer]
  · norm_num [Player.integratedY, Physics.applyGravity, Physics.gravity,
      Physics.terminalVelocity, World.frameRef, cexLandPlayer]

/-- `cexLandWorld` after one 16.67 ms update: the building has scrolled
6 pixels left. -/
def witLandWpost : WorldState :=
  ⟨[⟨78, 452, 200, 348, true, 0⟩], 30009/5000, 6, 6, 1994, 501/500⟩

lemma witLandW1 :
    World.update cexLandWorld (1667/100) zeroDraws 50 = witLandWpost := by
  norm_num [cexLandWorld, witLandWpost, World.update, World.genLoopUpdate,
    World.removeOffscreen, zeroDraws, World.frameRef, World.baseSpeed,
    World.maxSpeed, World.speedIncreaseRate, World.canvasWidth]

/-- A player falling onto the scrolled building of `witLandWpost`. -/
def witLandPlayer : PlayerState :=
  ⟨100, 402, 32, 48, 0, 2, false, true, false, 0, 0, 0, []⟩

/-- C2 witness: a concrete falling player crossing the rooftop line in
a real 16.67 ms tick lands: grounded, zero vertical velocity, alive. -/
theorem landing_determinism_witness :
    (Game.update cexLandWorld witLandPlayer (1667/100) false zeroDraws 50).player.grounded
      = true ∧
    (Game.update cexLandWorld witLandPlayer (1667/100) false zeroDraws 50).player.velocityY
      = 0 ∧
    (Game.update cexLandWorld witLandPlayer (1667/100) false zeroDraws 50).player.alive
      = true ∧
    (Game.update cexLandWorld witLandPlayer (1667/100) false zeroDraws 50).gameOver
      = false :=
  landing_determinism cexLandWorld witLandPlayer (1667/100) false zeroDraws 50
    witLandWpost ⟨78, 452, 200, 348, true, 0⟩
    witLandW1.symm
    (by
      refine ⟨?_, ?_, ?_⟩
      · exact List.pairwise_singleton _ _
      all_goals
        intro e he
        rw [show witLandWpost.buildings = [⟨78, 452, 200, 348, true, 0⟩] from rfl,
          List.mem_singleton] at he
        subst he
        norm_num)
    (by norm_num) rfl (by norm_num [witLandPlayer]) rfl rfl rfl
    (by norm_num [witLandWpost, World.getBuildingAt, witLandPlayer])
    (by norm_num [witLandPlayer])
    (by norm_num [witLandPlayer])
    (by norm_num [Player.integratedY, Physics.applyGravity, Physics.gravity,
      Physics.terminalVelocity, World.frameRef, witLandPlayer])

/-- A small world whose single building starts at `x = 120`, just ahead
of the player's feet. -/
def cexSideWorld : WorldState := ⟨[⟨120, 452, 200, 348, true, 0⟩], 6, 0, 0, 2000, 1⟩

/-- A player inside the gap whose top edge has already passed the
viewport bottom (600), overlapping the building's left face. -/
def cexSidePlayer : PlayerState :=
  ⟨100, 610, 32, 48, 0, 0, false, true, false, 0, 0, 0, []⟩

/-- A player inside the gap, top edge still on screen, overlapping the
building's left face below rooftop level. -/
def witSidePlayer : PlayerState :=
  ⟨100, 550, 32, 48, 0, 5, false, true, false, 0, 0, 0, []⟩

lemma cexSideW0 : World.update cexSideWorld 0 zeroDraws 50 = cexSideWorld := by
  norm_num [cexSideWorld, World.update, World.genLoopUpdate, World.removeOffscreen,
    zeroDraws, World.frameRef, World.baseSpeed, World.maxSpeed,
    World.speedIncreaseRate, World.canvasWidth]

/-- The side-loop entry state of the `witSidePlayer` tick. -/
def witSideQ : PlayerState :=
  ⟨100, 550, 32, 48, 0, 5, false, true, false, 0, 0, 0, [(100, 550, 1)]⟩

lemma witSideQEval :
    (Game.sideLoopEntry cexSideWorld witSidePlayer 0 false).1 = witSideQ := by
  norm_num [Game.sideLoopEntry, Game.landingResolve, Game.preLandingPlayer,
    Game.heldPlayer, Game.currentBuildingOf, Game.groundLevel, Game.canvasHeight,
    World.getBuildingAt, Player.update, Player.physStep, Player.cosmetics,
    Player.fadeTrail, Player.holdJump, Player.maxTrailLength,
    Player.animationSpeed, Physics.applyGravity, Physics.resolveGroundCollision,
    Physics.gravity, Physics.terminalVelocity, World.frameRef,
    cexSideWorld, witSidePlayer, witSideQ]

/-- C3 witness: a concrete on-screen player overlapping a building's
left face below rooftop level dies that tick and game over fires. -/
theorem side_collision_death_witness :
    (Game.update cexSideWorld witSidePlayer 0 false zeroDraws 50).player.alive
      = false ∧
    (Game.update cexSideWorld witSidePlayer 0 false zeroDraws 50).gameOver
      = true :=
  side_collision_death cexSideWorld witSidePlayer 0 false zeroDraws 50
    cexSideWorld witSideQ ⟨120, 452, 200, 348, true, 0⟩
    cexSideW0.symm witSideQEval.symm
    (by
      rw [show cexSideWorld.buildings = [⟨120, 452, 200, 348, true, 0⟩] from rfl]
      exact List.mem_singleton_self _)
    rfl
    (by norm_num [witSideQ]) (by norm_num [witSideQ]) (by norm_num [witSideQ])
    (by norm_num [witSideQ, Game.canvasHeight])

/-- The side-loop entry state of the `cexSidePlayer` tick. -/
def cexSideQ : PlayerState :=
  ⟨100, 610, 32, 48, 0, 0, false, true, false, 0, 0, 0, [(100, 610, 1)]⟩

lemma cexSideQEval :
    (Game.sideLoopEntry cexSideWorld cexSidePlayer 0 false).1 = cexSideQ := by
  norm_num [Game.sideLoopEntry, Game.landingResolve, Game.preLandingPlayer,
    Game.heldPlayer, Game.currentBuildingOf, Game.groundLevel, Game.canvasHeight,
    World.getBuildingAt, Player.update, Player.physStep, Player.cosmetics,
    Player.fadeTrail, Player.holdJump, Player.maxTrailLength,
    Player.animationSpeed, Physics.applyGravity, Physics.resolveGroundCollision,
    Physics.gravity, Physics.terminalVelocity, World.frameRef,
    cexSideWorld, cexSidePlayer, cexSideQ]

lemma cexSideTick :
    (Game.update cexSideWorld cexSidePlayer 0 false zeroDraws 50).player.alive
      = true ∧
    (Game.update cexSideWorld cexSidePlayer 0 false zeroDraws 50).gameOver
      = false := by
  have h : Game.update cexSideWorld cexSidePlayer 0 false zeroDraws 50 =
      Game.tickAfterWorld cexSideWorld cexSidePlayer 0 false := by
    show Game.tickAfterWorld (World.update cexSideWorld 0 zeroDraws 50)
      cexSidePlayer 0 false = _
    rw [cexSideW0]
  rw [h]
  norm_num [Game.tickAfterWorld, Game.sideLoopEntry, Game.landingResolve,
    Game.preLandingPlayer, Game.heldPlayer, Game.currentBuildingOf,
    Game.groundLevel, Game.sidePhase, Game.findSideHit, Game.sideHit,
    Game.canvasHeight, World.getBuildingAt, Player.update, Player.physStep,
    Player.cosmetics, Player.fadeTrail, Player.holdJump, Player.maxTrailLength,
    Player.animationSpeed, Physics.applyGravity, Physics.resolveGroundCollision,
    Physics.gravity, Physics.terminalVelocity, World.frameRef,
    Player.die, Player.landOnBuilding, cexSideWorld, cexSidePlayer]

/-- C3 counterexample: the claim as stated (without the source's
`player.y < canvasHeight` guard) is false. At the side-collision loop
the player's right edge (132) has crossed the building's left edge
(120), its left edge (100) has not, and its bottom (658) is more than
the tolerance below the rooftop line (452), yet because the player's
top edge (610) is already below the viewport bottom the source skips
the side check, the fall check (y > 650) has not fired either, and the
tick ends with the player alive and no game over. -/
theorem side_collision_below_viewport_survives :
    (Game.sideLoopEntry (World.update cexSideWorld 0 zeroDraws 50)
      cexSidePlayer 0 false).1 = cexSideQ ∧
    (⟨120, 452, 200, 348, true, 0⟩ : Building) ∈
      (World.update cexSideWorld 0 zeroDraws 50).buildings ∧
    cexSideQ.x + cexSideQ.width > 120 ∧
    cexSideQ.x < 120 ∧
    cexSideQ.y + cexSideQ.height > 452 + 10 ∧
    (Game.update cexSideWorld cexSidePlayer 0 false zeroDraws 50).player.alive
      = true ∧
    (Game.update cexSideWorld cexSidePlayer 0 false zeroDraws 50).gameOver
      = false := by
  refine ⟨?_, ?_, by norm_num [cexSideQ], by norm_num [cexSideQ],
    by norm_num [cexSideQ], cexSideTick.1, cexSideTick.2⟩
  · rw [cexSideW0]
    exact cexSideQEval
  · rw [cexSideW0]
    rw [show cexSideWorld.buildings = [⟨120, 452, 200, 348, true, 0⟩] from rfl]
    exact List.mem_singleton_self _
